import Mathlib

/-!
# Verification of the Audicia SOAP-note backend

Shallow embedding of the Audicia repository (Python/FastAPI) in Lean 4.

Part A embeds `src/backend/main.py`: the in-memory SOAP-note store
(`soap_notes_db`, a Python dict keyed by note id) and the route handlers
`create_soap_note`, `update_soap_note`, `sign_soap_note`, `delete_soap_note`.
Python dicts are modelled as association lists with Python-dict semantics
(assignment overwrites in place, new keys append, `del` removes the entry);
`datetime.now()` is modelled by an explicit `now : Nat` parameter; raising
`HTTPException` is modelled by `Except HTTPError`.
-/

namespace Audicia

/-- Python dict lookup `d[k]` / `d.get(k)`: first (unique) matching key. -/
def lookupKey {α : Type} (l : List (String × α)) (k : String) : Option α :=
  match l with
  | [] => none
  | (k2, v) :: rest => if k2 = k then some v else lookupKey rest k

/-- Python dict assignment `d[k] = v`: overwrite in place if the key is
present, otherwise append (Python dicts preserve insertion order). -/
def insertKey {α : Type} (l : List (String × α)) (k : String) (v : α) :
    List (String × α) :=
  match l with
  | [] => [(k, v)]
  | (k2, v2) :: rest =>
      if k2 = k then (k2, v) :: rest else (k2, v2) :: insertKey rest k v

/-- Python `del d[k]`: remove the (unique) entry with key `k`. -/
def eraseKey {α : Type} (l : List (String × α)) (k : String) :
    List (String × α) :=
  match l with
  | [] => []
  | (k2, v2) :: rest => if k2 = k then rest else (k2, v2) :: eraseKey rest k

@[simp] theorem lookupKey_nil {α : Type} (k : String) :
    lookupKey ([] : List (String × α)) k = none := rfl

theorem lookupKey_cons {α : Type} (k2 k : String) (v : α) (rest : List (String × α)) :
    lookupKey ((k2, v) :: rest) k = if k2 = k then some v else lookupKey rest k := rfl

@[simp] theorem lookupKey_insertKey_self {α : Type} (l : List (String × α))
    (k : String) (v : α) : lookupKey (insertKey l k v) k = some v := by
  induction l with
  | nil => simp [insertKey, lookupKey]
  | cons hd tl ih =>
      obtain ⟨k2, v2⟩ := hd
      by_cases h : k2 = k
      · simp [insertKey, lookupKey, h]
      · simp [insertKey, lookupKey, h, ih]

theorem lookupKey_insertKey_ne {α : Type} (l : List (String × α))
    (k k' : String) (v : α) (h : k' ≠ k) :
    lookupKey (insertKey l k v) k' = lookupKey l k' := by
  induction l with
  | nil =>
      simp only [insertKey, lookupKey]
      rw [if_neg (fun hk => h hk.symm)]
  | cons hd tl ih =>
      obtain ⟨k2, v2⟩ := hd
      by_cases h2 : k2 = k
      · subst h2
        simp only [insertKey, if_pos rfl, lookupKey]
        rw [if_neg (fun hk => h hk.symm), if_neg (fun hk => h hk.symm)]
      · simp only [insertKey, if_neg h2, lookupKey]
        by_cases h3 : k2 = k'
        · rw [if_pos h3, if_pos h3]
        · rw [if_neg h3, if_neg h3]
          exact ih

theorem lookupKey_eq_none_of_not_mem {α : Type} (l : List (String × α))
    (k : String) (h : k ∉ l.map Prod.fst) : lookupKey l k = none := by
  induction l with
  | nil => rfl
  | cons hd tl ih =>
      obtain ⟨k2, v2⟩ := hd
      simp only [List.map_cons, List.mem_cons] at h
      push_neg at h
      simp only [lookupKey]
      rw [if_neg (fun he => h.1 he.symm)]
      exact ih h.2

theorem lookupKey_eraseKey_self {α : Type} (l : List (String × α)) (k : String)
    (hnodup : (l.map Prod.fst).Nodup) :
    lookupKey (eraseKey l k) k = none := by
  induction l with
  | nil => simp [eraseKey]
  | cons hd tl ih =>
      obtain ⟨k2, v2⟩ := hd
      simp only [List.map_cons, List.nodup_cons] at hnodup
      by_cases h : k2 = k
      · subst h
        simpa [eraseKey] using lookupKey_eq_none_of_not_mem tl k2 hnodup.1
      · simp [eraseKey, h, lookupKey, ih hnodup.2]

/-! ## Data model of `src/backend/main.py` -/

inductive UserRole where
  | physician
  | nurse
  | admin
  | resident
  | medical_student
deriving DecidableEq

structure VitalSigns where
  blood_pressure_systolic : Option Int := none
  blood_pressure_diastolic : Option Int := none
  heart_rate : Option Int := none
  temperature : Option Rat := none
  respiratory_rate : Option Int := none
  oxygen_saturation : Option Int := none
  weight : Option Rat := none
  height : Option Rat := none
  bmi : Option Rat := none
deriving DecidableEq

structure SubjectiveSection where
  chief_complaint : String
  history_present_illness : String
  review_of_systems : Option String := none
  past_medical_history : Option String := none
  medications : List String := []
  allergies : List String := []
  social_history : Option String := none
  family_history : Option String := none
deriving DecidableEq

structure ObjectiveSection where
  vital_signs : VitalSigns
  physical_examination : String
  laboratory_results : Option String := none
  imaging_results : Option String := none
deriving DecidableEq

structure AssessmentSection where
  primary_diagnosis : String
  secondary_diagnoses : List String := []
  differential_diagnoses : List String := []
  clinical_impression : Option String := none
deriving DecidableEq

structure PlanSection where
  medications : List (List (String × String)) := []
  procedures : List String := []
  laboratory_tests : List String := []
  imaging_studies : List String := []
  follow_up : Option String := none
  patient_education : Option String := none
  referrals : List String := []
deriving DecidableEq

/-- The `SOAPNote` Pydantic model. `datetime` fields are modelled as `Nat`
timestamps; the request body supplies every field (Pydantic defaults are the
Lean field defaults). -/
structure SOAPNote where
  id : String
  patient_id : String
  patient_name : String
  patient_dob : String
  mrn : String
  encounter_date : Nat
  provider_id : String
  provider_name : String
  subjective : SubjectiveSection
  objective : ObjectiveSection
  assessment : AssessmentSection
  plan : PlanSection
  status : String := "draft"  -- draft, final, amended
  created_at : Nat
  updated_at : Nat
  signed_at : Option Nat := none
  version : Nat := 1
  tags : List String := []
deriving DecidableEq

structure User where
  user_id : String
  username : String
  email : String
  full_name : String
  role : UserRole
  license_number : Option String := none
  department : Option String := none
  is_active : Bool := true
  created_at : Nat := 0
deriving DecidableEq

/-- `raise HTTPException(status_code=..., detail=...)`. -/
structure HTTPError where
  statusCode : Nat
  detail : String
deriving DecidableEq

/-- The mock database `soap_notes_db : Dict[str, SOAPNote]`. -/
abbrev SoapNotesDB := List (String × SOAPNote)

/-! ## Route handlers of `src/backend/main.py` -/

/-- `POST /api/soap-notes` (`create_soap_note`): overwrite the provider
identity and timestamps from the server side, then store under the note's id
and return the stored note. -/
def create_soap_note (db : SoapNotesDB) (soap_note : SOAPNote)
    (current_user : User) (now : Nat) : SOAPNote × SoapNotesDB :=
  let note := { soap_note with
    provider_id := current_user.user_id
    provider_name := current_user.full_name
    created_at := now
    updated_at := now }
  (note, insertKey db note.id note)

/-- `PUT /api/soap-notes/{note_id}` (`update_soap_note`). -/
def update_soap_note (db : SoapNotesDB) (note_id : String)
    (soap_note : SOAPNote) (current_user : User) (now : Nat) :
    Except HTTPError (SOAPNote × SoapNotesDB) :=
  match lookupKey db note_id with
  | none => .error ⟨404, "SOAP note not found"⟩
  | some existing_note =>
      if existing_note.provider_id ≠ current_user.user_id ∧
          current_user.role ≠ UserRole.admin then
        .error ⟨403, "Not authorized to edit this note"⟩
      else
        let note := { soap_note with
          id := note_id
          updated_at := now
          version := existing_note.version + 1 }
        .ok (note, insertKey db note_id note)

/-- `POST /api/soap-notes/{note_id}/sign` (`sign_soap_note`): returns the
response pair (message, signed_at). -/
def sign_soap_note (db : SoapNotesDB) (note_id : String) (current_user : User)
    (now : Nat) : Except HTTPError ((String × Nat) × SoapNotesDB) :=
  match lookupKey db note_id with
  | none => .error ⟨404, "SOAP note not found"⟩
  | some note =>
      if note.provider_id ≠ current_user.user_id then
        .error ⟨403, "Only the provider can sign this note"⟩
      else
        let note2 := { note with status := "final", signed_at := some now }
        .ok (("SOAP note signed successfully", now), insertKey db note_id note2)

/-- `DELETE /api/soap-notes/{note_id}` (`delete_soap_note`). -/
def delete_soap_note (db : SoapNotesDB) (note_id : String)
    (current_user : User) : Except HTTPError (String × SoapNotesDB) :=
  match lookupKey db note_id with
  | none => .error ⟨404, "SOAP note not found"⟩
  | some note =>
      if note.provider_id ≠ current_user.user_id ∧
          current_user.role ≠ UserRole.admin then
        .error ⟨403, "Not authorized to delete this note"⟩
      else if note.status = "final" then
        .error ⟨400, "Cannot delete signed notes"⟩
      else
        .ok ("SOAP note deleted successfully", eraseKey db note_id)

/-- The store after a DELETE request: a raised `HTTPException` leaves the
in-memory dict untouched. -/
def runDelete (db : SoapNotesDB) (note_id : String) (current_user : User) :
    SoapNotesDB :=
  match delete_soap_note db note_id current_user with
  | .ok (_, db2) => db2
  | .error _ => db

/-! ## Concrete store fixtures used by counterexamples and witnesses -/

def exVitals : VitalSigns := {}

def exSubjective : SubjectiveSection :=
  { chief_complaint := "headache", history_present_illness := "three days of headache" }

def exObjective : ObjectiveSection :=
  { vital_signs := exVitals, physical_examination := "unremarkable" }

def exAssessment : AssessmentSection := { primary_diagnosis := "tension headache" }

def exPlan : PlanSection := {}

/-- A draft note whose provider is `prov-1`. -/
def exNote : SOAPNote :=
  { id := "n1", patient_id := "pat1", patient_name := "Jane Roe"
    patient_dob := "1980-01-01", mrn := "MRN-1", encounter_date := 100
    provider_id := "prov-1", provider_name := "Dr. A"
    subjective := exSubjective, objective := exObjective
    assessment := exAssessment, plan := exPlan
    created_at := 100, updated_at := 100 }

/-- The same note after the provider signed it. -/
def exFinalNote : SOAPNote := { exNote with status := "final", signed_at := some 200 }

/-- A request body claiming a different provider id than the caller's. -/
def exForeignNote : SOAPNote := { exNote with provider_id := "someone-else" }

def exProvider : User :=
  { user_id := "prov-1", username := "docA", email := "a@hospital.test"
    full_name := "Dr. A", role := UserRole.physician }

def exOtherUser : User :=
  { user_id := "prov-2", username := "docB", email := "b@hospital.test"
    full_name := "Dr. B", role := UserRole.physician }

def exDB : SoapNotesDB := [("n1", exNote)]

def exFinalDB : SoapNotesDB := [("n1", exFinalNote)]

/-! ## Claim C1 -/

/-- C1 counterexample: the claim says every delete request on a note whose
status is "final" fails with HTTP 400, but a delete request by a user who is
neither the note's provider nor an admin fails with HTTP 403 instead. -/
theorem delete_final_note_by_other_user_is_403 :
    delete_soap_note exFinalDB "n1" exOtherUser =
      Except.error ⟨403, "Not authorized to delete this note"⟩ ∧
    (403 : Nat) ≠ 400 := by
  constructor
  · rfl
  · decide

/-- C1 (amended): a sign request by the note's provider stores the note with
status "final" and signed_at recorded; and every delete request on a stored
note whose status is "final" fails — with HTTP 400 when the requester is the
note's provider or an admin, with HTTP 403 otherwise — leaving the store
unchanged, so signing is irreversible through the delete path. -/
theorem sign_is_terminal_and_delete_blocked :
    (∀ (db : SoapNotesDB) (note_id : String) (note : SOAPNote) (u : User) (now : Nat),
      lookupKey db note_id = some note →
      note.provider_id = u.user_id →
      sign_soap_note db note_id u now =
        .ok (("SOAP note signed successfully", now),
          insertKey db note_id { note with status := "final", signed_at := some now }) ∧
      lookupKey
          (insertKey db note_id { note with status := "final", signed_at := some now })
          note_id
        = some { note with status := "final", signed_at := some now }) ∧
    (∀ (db : SoapNotesDB) (note_id : String) (note : SOAPNote) (u2 : User),
      lookupKey db note_id = some note →
      note.status = "final" →
      (∃ err : HTTPError, delete_soap_note db note_id u2 = .error err ∧
        ((note.provider_id = u2.user_id ∨ u2.role = UserRole.admin) →
          err.statusCode = 400) ∧
        ((note.provider_id ≠ u2.user_id ∧ u2.role ≠ UserRole.admin) →
          err.statusCode = 403)) ∧
      runDelete db note_id u2 = db) := by
  constructor
  · intro db note_id note u now hlk hprov
    constructor
    · simp [sign_soap_note, hlk, hprov]
    · exact lookupKey_insertKey_self db note_id _
  · intro db note_id note u2 hlk hfinal
    by_cases hperm : note.provider_id ≠ u2.user_id ∧ u2.role ≠ UserRole.admin
    · have hdel : delete_soap_note db note_id u2 =
          .error ⟨403, "Not authorized to delete this note"⟩ := by
        simp [delete_soap_note, hlk, hperm]
      refine ⟨⟨_, hdel, ?_, ?_⟩, ?_⟩
      · intro hp
        rcases hp with h | h
        · exact absurd h hperm.1
        · exact absurd h hperm.2
      · intro _
        rfl
      · simp [runDelete, hdel]
    · have hdel : delete_soap_note db note_id u2 =
          .error ⟨400, "Cannot delete signed notes"⟩ := by
        simp [delete_soap_note, hlk, hperm, hfinal]
      refine ⟨⟨_, hdel, ?_, ?_⟩, ?_⟩
      · intro _
        rfl
      · intro h
        exact absurd h hperm
      · simp [runDelete, hdel]

/-- Witness for C1 (amended), exercising both conjuncts on a concrete store:
signing the draft note `n1` as its provider, and deleting the signed note
`n1` as its provider (HTTP 400). -/
theorem sign_is_terminal_and_delete_blocked_witness :
    (lookupKey exDB "n1" = some exNote ∧ exNote.provider_id = exProvider.user_id) ∧
    (sign_soap_note exDB "n1" exProvider 200 =
        .ok (("SOAP note signed successfully", 200),
          insertKey exDB "n1" { exNote with status := "final", signed_at := some 200 }) ∧
      lookupKey
          (insertKey exDB "n1" { exNote with status := "final", signed_at := some 200 })
          "n1"
        = some { exNote with status := "final", signed_at := some 200 }) ∧
    ((∃ err : HTTPError, delete_soap_note exFinalDB "n1" exProvider = .error err ∧
        ((exFinalNote.provider_id = exProvider.user_id ∨ exProvider.role = UserRole.admin) →
          err.statusCode = 400) ∧
        ((exFinalNote.provider_id ≠ exProvider.user_id ∧ exProvider.role ≠ UserRole.admin) →
          err.statusCode = 403)) ∧
      runDelete exFinalDB "n1" exProvider = exFinalDB) :=
  ⟨⟨rfl, rfl⟩,
    sign_is_terminal_and_delete_blocked.1 exDB "n1" exNote exProvider 200 rfl rfl,
    sign_is_terminal_and_delete_blocked.2 exFinalDB "n1" exFinalNote exProvider rfl rfl⟩

/-! ## Claim C2 -/

/-- C2 (confirmed): an update request on an already-signed (status "final")
note by the note's provider or an admin still succeeds; the stored and
returned note is the request body with only the id kept, the version
incremented and updated_at refreshed — in particular its status is the
request body's status, so the update can reset status away from "final". -/
theorem update_succeeds_on_signed_note (db : SoapNotesDB) (note_id : String)
    (existing body : SOAPNote) (u : User) (now : Nat)
    (hlk : lookupKey db note_id = some existing)
    (hfinal : existing.status = "final")
    (hauth : existing.provider_id = u.user_id ∨ u.role = UserRole.admin) :
    update_soap_note db note_id body u now =
      .ok ({ body with id := note_id, updated_at := now, version := existing.version + 1 },
        insertKey db note_id
          { body with id := note_id, updated_at := now, version := existing.version + 1 }) ∧
    lookupKey
        (insertKey db note_id
          { body with id := note_id, updated_at := now, version := existing.version + 1 })
        note_id
      = some { body with id := note_id, updated_at := now, version := existing.version + 1 } ∧
    ({ body with id := note_id, updated_at := now, version := existing.version + 1 }).status
      = body.status := by
  have hcond : ¬(existing.provider_id ≠ u.user_id ∧ u.role ≠ UserRole.admin) := by
    rcases hauth with h | h
    · exact fun hc => hc.1 h
    · exact fun hc => hc.2 h
  refine ⟨?_, lookupKey_insertKey_self db note_id _, rfl⟩
  simp [update_soap_note, hlk, hcond]

/-- Witness for C2: updating the signed note `n1` as its provider with a
draft-status body succeeds and stores the body with status "draft". -/
theorem update_succeeds_on_signed_note_witness :
    (lookupKey exFinalDB "n1" = some exFinalNote ∧ exFinalNote.status = "final" ∧
      (exFinalNote.provider_id = exProvider.user_id ∨ exProvider.role = UserRole.admin)) ∧
    (update_soap_note exFinalDB "n1" exNote exProvider 300 =
        .ok ({ exNote with id := "n1", updated_at := 300, version := exFinalNote.version + 1 },
          insertKey exFinalDB "n1"
            { exNote with id := "n1", updated_at := 300, version := exFinalNote.version + 1 }) ∧
      lookupKey
          (insertKey exFinalDB "n1"
            { exNote with id := "n1", updated_at := 300, version := exFinalNote.version + 1 })
          "n1"
        = some { exNote with id := "n1", updated_at := 300, version := exFinalNote.version + 1 } ∧
      ({ exNote with id := "n1", updated_at := 300, version := exFinalNote.version + 1 }).status
        = exNote.status) :=
  ⟨⟨rfl, rfl, Or.inl rfl⟩,
    update_succeeds_on_signed_note exFinalDB "n1" exFinalNote exNote exProvider 300
      rfl rfl (Or.inl rfl)⟩

/-! ## Claim C3 -/

/-- C3 (confirmed): for every note id present in the store and every
authorized update request, update_soap_note stores and returns a note whose
version equals the previously stored note's version plus one. -/
theorem update_increments_version (db : SoapNotesDB) (note_id : String)
    (existing body : SOAPNote) (u : User) (now : Nat)
    (hlk : lookupKey db note_id = some existing)
    (hauth : existing.provider_id = u.user_id ∨ u.role = UserRole.admin) :
    ∃ (r : SOAPNote) (db2 : SoapNotesDB),
      update_soap_note db note_id body u now = .ok (r, db2) ∧
      r.version = existing.version + 1 ∧
      lookupKey db2 note_id = some r := by
  have hcond : ¬(existing.provider_id ≠ u.user_id ∧ u.role ≠ UserRole.admin) := by
    rcases hauth with h | h
    · exact fun hc => hc.1 h
    · exact fun hc => hc.2 h
  refine ⟨{ body with id := note_id, updated_at := now, version := existing.version + 1 },
    insertKey db note_id
      { body with id := note_id, updated_at := now, version := existing.version + 1 },
    ?_, rfl, lookupKey_insertKey_self db note_id _⟩
  simp [update_soap_note, hlk, hcond]

/-- Witness for C3: updating the draft note `n1` as its provider yields
version 2 = 1 + 1. -/
theorem update_increments_version_witness :
    (lookupKey exDB "n1" = some exNote ∧
      (exNote.provider_id = exProvider.user_id ∨ exProvider.role = UserRole.admin)) ∧
    (∃ (r : SOAPNote) (db2 : SoapNotesDB),
      update_soap_note exDB "n1" exForeignNote exProvider 300 = .ok (r, db2) ∧
      r.version = exNote.version + 1 ∧
      lookupKey db2 "n1" = some r) :=
  ⟨⟨rfl, Or.inl rfl⟩,
    update_increments_version exDB "n1" exNote exForeignNote exProvider 300 rfl (Or.inl rfl)⟩

/-! ## Claim C4 -/

/-- C4 counterexample: the claim says no operation removes a note record from
the store (delete at most marks the note), but deleting the stored draft note
`n1` as its provider removes the record: the store becomes empty. -/
theorem delete_removes_draft_note_from_store :
    lookupKey exDB "n1" = some exNote ∧
    delete_soap_note exDB "n1" exProvider =
      .ok ("SOAP note deleted successfully", ([] : SoapNotesDB)) ∧
    lookupKey ([] : SoapNotesDB) "n1" = none := by
  refine ⟨rfl, ?_, rfl⟩
  rfl

/-- C4 (amended): soft delete is not implemented — the delete path truly
removes the record of any stored note whose status is not "final" when
requested by the note's provider or an admin; after the delete the note id is
no longer present in the store. Only "final" notes survive the delete path. -/
theorem delete_truly_removes_unsigned_note (db : SoapNotesDB) (note_id : String)
    (note : SOAPNote) (u : User)
    (hnodup : (db.map Prod.fst).Nodup)
    (hlk : lookupKey db note_id = some note)
    (hstatus : note.status ≠ "final")
    (hauth : note.provider_id = u.user_id ∨ u.role = UserRole.admin) :
    delete_soap_note db note_id u =
      .ok ("SOAP note deleted successfully", eraseKey db note_id) ∧
    lookupKey (eraseKey db note_id) note_id = none := by
  have hcond : ¬(note.provider_id ≠ u.user_id ∧ u.role ≠ UserRole.admin) := by
    rcases hauth with h | h
    · exact fun hc => hc.1 h
    · exact fun hc => hc.2 h
  constructor
  · simp [delete_soap_note, hlk, hcond, hstatus]
  · exact lookupKey_eraseKey_self db note_id hnodup

/-- Witness for C4 (amended) on the one-note store. -/
theorem delete_truly_removes_unsigned_note_witness :
    ((exDB.map Prod.fst).Nodup ∧ lookupKey exDB "n1" = some exNote ∧
      exNote.status ≠ "final" ∧
      (exNote.provider_id = exProvider.user_id ∨ exProvider.role = UserRole.admin)) ∧
    (delete_soap_note exDB "n1" exProvider =
        .ok ("SOAP note deleted successfully", eraseKey exDB "n1") ∧
      lookupKey (eraseKey exDB "n1") "n1" = none) :=
  ⟨⟨by simp [exDB], rfl, by decide, Or.inl rfl⟩,
    delete_truly_removes_unsigned_note exDB "n1" exNote exProvider
      (by simp [exDB]) rfl (by decide) (Or.inl rfl)⟩

/-! ## Claim C5 -/

/-- C5 counterexample: the claim says every field of the create response
equals the corresponding field of the request body, but the handler
overwrites provider_id with the caller's user id: submitting a body whose
provider_id is "someone-else" as the user "prov-1" returns provider_id
"prov-1". -/
theorem create_overrides_submitted_provider :
    (create_soap_note [] exForeignNote exProvider 100).1.provider_id = "prov-1" ∧
    exForeignNote.provider_id = "someone-else" ∧
    ("prov-1" : String) ≠ "someone-else" := by
  refine ⟨rfl, rfl, ?_⟩
  decide

/-- C5 (amended): create_soap_note returns (and stores, keyed by the
submitted id) the submitted fields unchanged except that provider_id and
provider_name are overwritten with the caller's identity and created_at /
updated_at are refreshed to the current time. -/
theorem create_returns_submitted_fields_except_server_fields
    (db : SoapNotesDB) (body : SOAPNote) (u : User) (now : Nat) :
    (create_soap_note db body u now).1.id = body.id ∧
    (create_soap_note db body u now).1.patient_id = body.patient_id ∧
    (create_soap_note db body u now).1.patient_name = body.patient_name ∧
    (create_soap_note db body u now).1.patient_dob = body.patient_dob ∧
    (create_soap_note db body u now).1.mrn = body.mrn ∧
    (create_soap_note db body u now).1.encounter_date = body.encounter_date ∧
    (create_soap_note db body u now).1.subjective = body.subjective ∧
    (create_soap_note db body u now).1.objective = body.objective ∧
    (create_soap_note db body u now).1.assessment = body.assessment ∧
    (create_soap_note db body u now).1.plan = body.plan ∧
    (create_soap_note db body u now).1.status = body.status ∧
    (create_soap_note db body u now).1.signed_at = body.signed_at ∧
    (create_soap_note db body u now).1.version = body.version ∧
    (create_soap_note db body u now).1.tags = body.tags ∧
    (create_soap_note db body u now).1.provider_id = u.user_id ∧
    (create_soap_note db body u now).1.provider_name = u.full_name ∧
    (create_soap_note db body u now).1.created_at = now ∧
    (create_soap_note db body u now).1.updated_at = now ∧
    lookupKey (create_soap_note db body u now).2 body.id =
      some (create_soap_note db body u now).1 := by
  refine ⟨rfl, rfl, rfl, rfl, rfl, rfl, rfl, rfl, rfl, rfl, rfl, rfl, rfl, rfl,
    rfl, rfl, rfl, rfl, ?_⟩
  exact lookupKey_insertKey_self db body.id _

/-!
# Part B: `src/voice-to-soap/backend/soap_generator.py`

Embedding of the response-shape coercion of `MedicalSOAPGenerator`:
`_merge_dict_structures`, `_validate_soap_structure` and
`_validate_specific_fields`. Python JSON values (the output of `json.loads`)
are modelled by the inductive `Json`; dicts are association lists (a dict
produced by `json.loads` has pairwise-distinct keys at every level). Python
numbers are modelled by `Rat`; a Python `bool` is a subclass of `int` with
value 0 or 1, which matters for the `isinstance(score, (int, float))` check.
-/

inductive Json where
  | str : String → Json
  | num : Rat → Json
  | bool : Bool → Json
  | null : Json
  | arr : List Json → Json
  | obj : List (String × Json) → Json

/-- Is this value a Python dict? (`isinstance(value, dict)`). -/
def Json.isObj : Json → Bool
  | Json.obj _ => true
  | _ => false

mutual
/-- `_merge_dict_structures(template, data)`: start from a copy of the
template and fold the data items in; an existing key is overwritten in
place (recursively when both sides are dicts), a new key is appended. -/
def mergeObj (t : List (String × Json)) (d : List (String × Json)) :
    List (String × Json) :=
  match d with
  | [] => t
  | (k, v) :: rest => mergeObj (insertKey t k (mergeAt (lookupKey t k) v)) rest
termination_by sizeOf d

/-- The body of the merge loop for one key: recurse when both the template's
value and the incoming value are dicts, otherwise the incoming value wins
(also when the key is absent from the template). -/
def mergeAt (existing : Option Json) (v : Json) : Json :=
  match existing, v with
  | some (Json.obj tvs), Json.obj dvs => Json.obj (mergeObj tvs dvs)
  | _, _ => v
termination_by sizeOf v
end

/-- The "metadata" sub-dict of the `required_structure` template. -/
def templateMetadata : List (String × Json) :=
  [("confidence_score", Json.num (1/2)),
   ("completeness_score", Json.num (1/2)),
   ("medical_accuracy_score", Json.num (1/2)),
   ("missing_elements", Json.arr [])]

/-- The `required_structure` template of `_validate_soap_structure`. -/
def requiredStructure : List (String × Json) :=
  [("subjective", Json.obj [
      ("chief_complaint", Json.str ""),
      ("history_present_illness", Json.str ""),
      ("review_of_systems", Json.str ""),
      ("past_medical_history", Json.str ""),
      ("medications", Json.str ""),
      ("allergies", Json.str ""),
      ("social_history", Json.str ""),
      ("family_history", Json.str "")]),
   ("objective", Json.obj [
      ("vital_signs", Json.obj [
        ("blood_pressure", Json.str ""),
        ("heart_rate", Json.str ""),
        ("temperature", Json.str ""),
        ("respiratory_rate", Json.str ""),
        ("oxygen_saturation", Json.str ""),
        ("weight", Json.str ""),
        ("height", Json.str ""),
        ("bmi", Json.str "")]),
      ("physical_examination", Json.str ""),
      ("laboratory_results", Json.str ""),
      ("imaging_results", Json.str "")]),
   ("assessment", Json.obj [
      ("primary_diagnosis", Json.str ""),
      ("icd10_codes", Json.arr []),
      ("differential_diagnoses", Json.arr []),
      ("clinical_impression", Json.str "")]),
   ("plan", Json.obj [
      ("medications", Json.arr []),
      ("procedures", Json.arr []),
      ("laboratory_tests", Json.arr []),
      ("imaging_studies", Json.arr []),
      ("follow_up", Json.str ""),
      ("patient_education", Json.str ""),
      ("referrals", Json.arr [])]),
   ("metadata", Json.obj templateMetadata)]

/-- Python `key in v` for a string key: key membership for dicts, substring
test for strings, element membership for lists, `TypeError` otherwise. -/
def pyContains (v : Json) (key : String) : Except String Bool :=
  match v with
  | Json.obj kvs => .ok (lookupKey kvs key).isSome
  | Json.str s => .ok (decide (key.toList <:+: s.toList))
  | Json.arr xs => .ok (xs.any fun x =>
      match x with
      | Json.str s => s = key
      | _ => false)
  | _ => .error "TypeError: argument is not iterable"

/-- Python `v[key]` for a string key: only dicts support it (`str`/`list`
indices must be integers). -/
def pyGetItem (v : Json) (key : String) : Except String Json :=
  match v with
  | Json.obj kvs =>
      match lookupKey kvs key with
      | some x => .ok x
      | none => .error "KeyError"
  | _ => .error "TypeError: indices must be integers"

/-- Python `v[key] = x` for a string key: only dicts support it. -/
def pySetItem (v : Json) (key : String) (x : Json) : Except String Json :=
  match v with
  | Json.obj kvs => .ok (Json.obj (insertKey kvs key x))
  | _ => .error "TypeError: object does not support item assignment"

/-- The `array_fields` table of `_validate_specific_fields`. -/
def arrayFields : List (String × String) :=
  [("assessment", "icd10_codes"),
   ("assessment", "differential_diagnoses"),
   ("plan", "medications"),
   ("plan", "procedures"),
   ("plan", "laboratory_tests"),
   ("plan", "imaging_studies"),
   ("plan", "referrals")]

/-- One iteration of the array-coercion loop of `_validate_specific_fields`:
if the section and field exist, force the value to a list (a non-empty
string becomes a one-element list, everything else non-list becomes `[]`). -/
def fixArrayField (t : List (String × Json)) (sf : String × String) :
    Except String (List (String × Json)) :=
  match lookupKey t sf.1 with
  | none => .ok t
  | some sv => do
      let present ← pyContains sv sf.2
      if present then do
        let value ← pyGetItem sv sf.2
        match value with
        | Json.arr _ => .ok t
        | Json.str s =>
            if s ≠ "" then do
              let sv2 ← pySetItem sv sf.2 (Json.arr [Json.str s])
              .ok (insertKey t sf.1 sv2)
            else do
              let sv2 ← pySetItem sv sf.2 (Json.arr [])
              .ok (insertKey t sf.1 sv2)
        | _ => do
            let sv2 ← pySetItem sv sf.2 (Json.arr [])
            .ok (insertKey t sf.1 sv2)
      else .ok t

/-- The three confidence-score fields checked by `_validate_specific_fields`. -/
def scoreFields : List String :=
  ["confidence_score", "completeness_score", "medical_accuracy_score"]

/-- One iteration of the confidence-score loop: replace the value by 0.5
unless it is an int/float within [0, 1]. A Python `bool` passes the
`isinstance(score, (int, float))` check with value 0 or 1, so it is left
untouched. -/
def clampScoreField (m : Json) (f : String) : Except String Json := do
  let present ← pyContains m f
  if present then do
    let score ← pyGetItem m f
    match score with
    | Json.num q =>
        if q < 0 ∨ q > 1 then pySetItem m f (Json.num (1/2)) else .ok m
    | Json.bool _ => .ok m
    | _ => pySetItem m f (Json.num (1/2))
  else .ok m

/-- `_validate_specific_fields`. -/
def validateSpecificFields (t : List (String × Json)) :
    Except String (List (String × Json)) := do
  let t2 ← arrayFields.foldlM fixArrayField t
  match lookupKey t2 "metadata" with
  | none => .ok t2
  | some m => do
      let m2 ← scoreFields.foldlM clampScoreField m
      .ok (insertKey t2 "metadata" m2)

/-- `_validate_soap_structure`: merge the model's JSON into the fixed
template, then clean specific fields. A non-dict model response raises
(`AttributeError` on `.items()`); any raised error propagates to the caller
(`_process_ai_response` wraps it in a `RuntimeError`). -/
def validateSoapStructure (soapData : Json) : Except String Json :=
  match soapData with
  | Json.obj d => do
      let cleaned ← validateSpecificFields (mergeObj requiredStructure d)
      .ok (Json.obj cleaned)
  | _ => .error "AttributeError: no attribute items"

/-- Follow a path of dict keys through a JSON value. -/
def getPath (j : Json) (p : List String) : Option Json :=
  match p with
  | [] => some j
  | k :: ps =>
      match j with
      | Json.obj kvs => (lookupKey kvs k).bind (fun v => getPath v ps)
      | _ => none

mutual
/-- Every dict inside the value has pairwise-distinct keys — true of any
value produced by `json.loads`. -/
def uniqKeys : Json → Bool
  | Json.arr xs => uniqKeysList xs
  | Json.obj kvs => decide ((kvs.map Prod.fst).Nodup) && uniqKeysPairs kvs
  | _ => true
termination_by j => sizeOf j

def uniqKeysList : List Json → Bool
  | [] => true
  | x :: xs => uniqKeys x && uniqKeysList xs
termination_by l => sizeOf l

def uniqKeysPairs : List (String × Json) → Bool
  | [] => true
  | (_, v) :: rest => uniqKeys v && uniqKeysPairs rest
termination_by l => sizeOf l
end

mutual
/-- Structural compatibility of the model's JSON with a template: wherever
the template holds a dict at a key that the data also supplies, the data's
value is a dict too (recursively). When this fails, the merge replaces a
whole template subtree by a scalar and template leaf paths are lost. -/
def compatObj (t : List (String × Json)) : List (String × Json) → Bool
  | [] => true
  | (k, v) :: rest => compatAt (lookupKey t k) v && compatObj t rest
termination_by d => sizeOf d

def compatAt : Option Json → Json → Bool
  | some (Json.obj tvs), v =>
      match v with
      | Json.obj dvs => compatObj tvs dvs
      | _ => false
  | _, _ => true
termination_by _ v => sizeOf v
end

/-! ## Lemmas about the merge -/

theorem lookupKey_mem {α : Type} {l : List (String × α)} {k : String} {v : α}
    (h : lookupKey l k = some v) : (k, v) ∈ l := by
  induction l with
  | nil => simp [lookupKey] at h
  | cons hd tl ih =>
      obtain ⟨k2, v2⟩ := hd
      simp only [lookupKey] at h
      by_cases h2 : k2 = k
      · subst h2
        rw [if_pos rfl] at h
        injection h with h3
        subst h3
        exact List.mem_cons_self _ _
      · rw [if_neg h2] at h
        exact List.mem_cons_of_mem _ (ih h)

@[simp] theorem mergeObj_nil (t : List (String × Json)) : mergeObj t [] = t := by
  simp [mergeObj]

theorem mergeObj_cons (t : List (String × Json)) (k : String) (v : Json)
    (rest : List (String × Json)) :
    mergeObj t ((k, v) :: rest)
      = mergeObj (insertKey t k (mergeAt (lookupKey t k) v)) rest := by
  simp [mergeObj]

@[simp] theorem mergeAt_obj_obj (tvs dvs : List (String × Json)) :
    mergeAt (some (Json.obj tvs)) (Json.obj dvs) = Json.obj (mergeObj tvs dvs) := by
  simp [mergeAt]

theorem mergeAt_none (v : Json) : mergeAt none v = v := by
  simp [mergeAt]

theorem mergeAt_some_nonobj {tv : Json} (h : tv.isObj = false) (v : Json) :
    mergeAt (some tv) v = v := by
  cases tv <;> cases v <;> simp_all [mergeAt, Json.isObj]

theorem lookupKey_mergeObj_of_not_mem (t d : List (String × Json)) (k : String)
    (hd : lookupKey d k = none) :
    lookupKey (mergeObj t d) k = lookupKey t k := by
  induction d generalizing t with
  | nil => simp
  | cons hd0 rest ih =>
      obtain ⟨k0, v0⟩ := hd0
      simp only [lookupKey] at hd
      by_cases h0 : k0 = k
      · rw [if_pos h0] at hd
        cases hd
      · rw [if_neg h0] at hd
        rw [mergeObj_cons, ih _ hd]
        exact lookupKey_insertKey_ne _ _ _ _ (fun he => h0 he.symm)

theorem lookupKey_mergeObj_of_mem (t d : List (String × Json)) (k : String)
    (dv : Json) (hnodup : (d.map Prod.fst).Nodup)
    (hd : lookupKey d k = some dv) :
    lookupKey (mergeObj t d) k = some (mergeAt (lookupKey t k) dv) := by
  induction d generalizing t with
  | nil => simp [lookupKey] at hd
  | cons hd0 rest ih =>
      obtain ⟨k0, v0⟩ := hd0
      simp only [List.map_cons, List.nodup_cons] at hnodup
      simp only [lookupKey] at hd
      rw [mergeObj_cons]
      by_cases h0 : k0 = k
      · subst h0
        rw [if_pos rfl] at hd
        injection hd with hdv
        subst hdv
        rw [lookupKey_mergeObj_of_not_mem _ _ _
          (lookupKey_eq_none_of_not_mem _ _ hnodup.1)]
        exact lookupKey_insertKey_self _ _ _
      · rw [if_neg h0] at hd
        rw [ih _ hnodup.2 hd]
        rw [lookupKey_insertKey_ne _ _ _ _ (fun he => h0 he.symm)]

theorem compatObj_of_lookup (t d : List (String × Json)) (k : String)
    (dv : Json) (hc : compatObj t d = true) (hd : lookupKey d k = some dv) :
    compatAt (lookupKey t k) dv = true := by
  induction d with
  | nil => simp [lookupKey] at hd
  | cons hd0 rest ih =>
      obtain ⟨k0, v0⟩ := hd0
      simp only [compatObj, Bool.and_eq_true] at hc
      simp only [lookupKey] at hd
      by_cases h0 : k0 = k
      · subst h0
        rw [if_pos rfl] at hd
        injection hd with h2
        subst h2
        exact hc.1
      · rw [if_neg h0] at hd
        exact ih hc.2 hd

theorem compatAt_some_obj {tvs : List (String × Json)} {dv : Json}
    (h : compatAt (some (Json.obj tvs)) dv = true) :
    ∃ dvs, dv = Json.obj dvs ∧ compatObj tvs dvs = true := by
  cases dv with
  | obj dvs => exact ⟨dvs, rfl, by simpa [compatAt] using h⟩
  | str s => simp [compatAt] at h
  | num q => simp [compatAt] at h
  | bool b => simp [compatAt] at h
  | null => simp [compatAt] at h
  | arr xs => simp [compatAt] at h

theorem uniqKeysPairs_lookup {d : List (String × Json)} {k : String} {v : Json}
    (h : uniqKeysPairs d = true) (hl : lookupKey d k = some v) :
    uniqKeys v = true := by
  induction d with
  | nil => simp [lookupKey] at hl
  | cons hd0 rest ih =>
      obtain ⟨k0, v0⟩ := hd0
      simp only [uniqKeysPairs, Bool.and_eq_true] at h
      simp only [lookupKey] at hl
      by_cases h0 : k0 = k
      · rw [if_pos h0] at hl
        injection hl with h2
        subst h2
        exact h.1
      · rw [if_neg h0] at hl
        exact ih h.2 hl

theorem uniqKeys_obj_nodup {d : List (String × Json)}
    (h : uniqKeys (Json.obj d) = true) : (d.map Prod.fst).Nodup := by
  simp only [uniqKeys, Bool.and_eq_true, decide_eq_true_eq] at h
  exact h.1

theorem uniqKeys_obj_pairs {d : List (String × Json)}
    (h : uniqKeys (Json.obj d) = true) : uniqKeysPairs d = true := by
  simp only [uniqKeys, Bool.and_eq_true] at h
  exact h.2

@[simp] theorem getPath_nil (j : Json) : getPath j [] = some j := rfl

theorem getPath_cons_obj (kvs : List (String × Json)) (k : String)
    (ps : List String) :
    getPath (Json.obj kvs) (k :: ps) = (lookupKey kvs k).bind (fun v => getPath v ps) :=
  rfl

theorem getPath_cons_of_not_obj {j : Json} (h : j.isObj = false) (k : String)
    (ps : List String) : getPath j (k :: ps) = none := by
  cases j <;> simp_all [getPath, Json.isObj]

/-- Key lemma for the merge: along any template path ending in a non-dict
template value, provided the data is structurally compatible with the
template and has unique keys, the merged value is the data's value when the
data supplies the path and the template's default otherwise. -/
theorem getPath_mergeObj (p : List String) :
    ∀ (t d : List (String × Json)) (v : Json),
      uniqKeys (Json.obj d) = true →
      compatObj t d = true →
      getPath (Json.obj t) p = some v →
      v.isObj = false →
      getPath (Json.obj (mergeObj t d)) p
        = some ((getPath (Json.obj d) p).getD v) := by
  induction p with
  | nil =>
      intro t d v _ _ hv hobj
      rw [getPath_nil] at hv
      injection hv with hv
      rw [← hv] at hobj
      simp [Json.isObj] at hobj
  | cons k ps ih =>
      intro t d v huniq hcompat hv hobj
      rw [getPath_cons_obj] at hv
      cases htk : lookupKey t k with
      | none =>
          rw [htk] at hv
          cases hv
      | some tv =>
          rw [htk] at hv
          rw [Option.some_bind] at hv
          cases hdk : lookupKey d k with
          | none =>
              rw [getPath_cons_obj, lookupKey_mergeObj_of_not_mem t d k hdk, htk,
                Option.some_bind, hv, getPath_cons_obj, hdk, Option.none_bind]
              simp
          | some dv =>
              have hnodup := uniqKeys_obj_nodup huniq
              have hm := lookupKey_mergeObj_of_mem t d k dv hnodup hdk
              have hca := compatObj_of_lookup t d k dv hcompat hdk
              rw [htk] at hca
              rw [htk] at hm
              cases htvobj : tv.isObj with
              | true =>
                  cases tv with
                  | obj tvs =>
                      obtain ⟨dvs, rfl, hcsub⟩ := compatAt_some_obj hca
                      have huniqsub : uniqKeys (Json.obj dvs) = true :=
                        uniqKeysPairs_lookup (uniqKeys_obj_pairs huniq) hdk
                      have hrec := ih tvs dvs v huniqsub hcsub hv hobj
                      rw [mergeAt_obj_obj] at hm
                      rw [getPath_cons_obj, hm, Option.some_bind, hrec,
                        getPath_cons_obj, hdk, Option.some_bind]
                  | str s => simp [Json.isObj] at htvobj
                  | num q => simp [Json.isObj] at htvobj
                  | bool b => simp [Json.isObj] at htvobj
                  | null => simp [Json.isObj] at htvobj
                  | arr xs => simp [Json.isObj] at htvobj
              | false =>
                  cases ps with
                  | nil =>
                      rw [getPath_nil] at hv
                      injection hv with hv
                      rw [mergeAt_some_nonobj htvobj] at hm
                      rw [getPath_cons_obj, hm, Option.some_bind, getPath_nil,
                        getPath_cons_obj, hdk, Option.some_bind, getPath_nil]
                      simp
                  | cons k2 ps2 =>
                      rw [getPath_cons_of_not_obj htvobj] at hv
                      cases hv

/-- The merge replaces the template's value outright whenever the incoming
value is not a dict (only the dict/dict case recurses). -/
theorem mergeAt_data_nonobj (e : Option Json) (v : Json) (h : v.isObj = false) :
    mergeAt e v = v := by
  cases e with
  | none => simp [mergeAt]
  | some tv => cases tv <;> cases v <;> simp_all [mergeAt, Json.isObj]

/-! ## Claim C7 -/

/-- A model response that overrides the template's "subjective" dict with a
plain string. -/
def exScalarOverride : List (String × Json) := [("subjective", Json.str "hello")]

/-- C7 counterexample: the claim says every leaf path of the template is
present in the merged result, but when the model's JSON holds a non-dict
value at an interior template key ("subjective" here), the merge replaces
the whole subtree, and the template leaf path subjective.chief_complaint is
absent from the result. -/
theorem merge_loses_template_leaf_on_scalar_override :
    getPath (Json.obj requiredStructure) ["subjective", "chief_complaint"]
      = some (Json.str "") ∧
    getPath (Json.obj (mergeObj requiredStructure exScalarOverride))
      ["subjective", "chief_complaint"] = none := by
  constructor
  · rfl
  · have h1 : lookupKey exScalarOverride "subjective" = some (Json.str "hello") := rfl
    have hm := lookupKey_mergeObj_of_mem requiredStructure exScalarOverride
      "subjective" (Json.str "hello") (by simp [exScalarOverride]) h1
    rw [mergeAt_data_nonobj _ (Json.str "hello") rfl] at hm
    rw [getPath_cons_obj, hm, Option.some_bind]
    rfl

/-- C7 (amended): when the model's JSON has unique keys and is structurally
compatible with the template (it does not override a template dict with a
non-dict value), every leaf path of the template is present in the merged
result; a leaf supplied by the model keeps the model's value, and a leaf
absent from the model's JSON takes the template default (empty string for
string leaves, empty list for list leaves — the template value itself). -/
theorem merge_defaults_missing_leaves (d : List (String × Json))
    (p : List String) (v : Json)
    (huniq : uniqKeys (Json.obj d) = true)
    (hcompat : compatObj requiredStructure d = true)
    (hleaf : getPath (Json.obj requiredStructure) p = some v)
    (hnonobj : v.isObj = false) :
    getPath (Json.obj (mergeObj requiredStructure d)) p
      = some ((getPath (Json.obj d) p).getD v) :=
  getPath_mergeObj p requiredStructure d v huniq hcompat hleaf hnonobj

/-- A well-shaped model response supplying one subjective leaf. -/
def exGoodData : List (String × Json) :=
  [("subjective", Json.obj [("chief_complaint", Json.str "Chest pain")])]

/-- Witness for C7 (amended): the supplied leaf keeps the model's value and
an unsupplied leaf ("history_present_illness") gets the template default. -/
theorem merge_defaults_missing_leaves_witness :
    (uniqKeys (Json.obj exGoodData) = true ∧
      compatObj requiredStructure exGoodData = true ∧
      getPath (Json.obj requiredStructure) ["subjective", "chief_complaint"]
        = some (Json.str "") ∧
      getPath (Json.obj requiredStructure) ["subjective", "history_present_illness"]
        = some (Json.str "") ∧
      (Json.str "").isObj = false) ∧
    getPath (Json.obj (mergeObj requiredStructure exGoodData))
        ["subjective", "chief_complaint"]
      = some ((getPath (Json.obj exGoodData) ["subjective", "chief_complaint"]).getD
          (Json.str "")) ∧
    getPath (Json.obj (mergeObj requiredStructure exGoodData))
        ["subjective", "history_present_illness"]
      = some ((getPath (Json.obj exGoodData)
          ["subjective", "history_present_illness"]).getD (Json.str "")) :=
  ⟨⟨by simp [exGoodData, uniqKeys, uniqKeysPairs],
    by simp [exGoodData, requiredStructure, compatObj, compatAt, lookupKey],
    rfl, rfl, rfl⟩,
    merge_defaults_missing_leaves exGoodData ["subjective", "chief_complaint"]
      (Json.str "") (by simp [exGoodData, uniqKeys, uniqKeysPairs])
      (by simp [exGoodData, requiredStructure, compatObj, compatAt, lookupKey])
      rfl rfl,
    merge_defaults_missing_leaves exGoodData
      ["subjective", "history_present_illness"] (Json.str "")
      (by simp [exGoodData, uniqKeys, uniqKeysPairs])
      (by simp [exGoodData, requiredStructure, compatObj, compatAt, lookupKey])
      rfl rfl⟩

/-! ## Lemmas about `_validate_specific_fields` -/

/-- A successful `fixArrayField` step either leaves the dict alone or
reassigns the section key. -/
theorem fixArrayField_ok_shape {t t2 : List (String × Json)}
    {sf : String × String} (h : fixArrayField t sf = .ok t2) :
    t2 = t ∨ ∃ sv2, t2 = insertKey t sf.1 sv2 := by
  unfold fixArrayField at h
  cases hsv : lookupKey t sf.1 with
  | none =>
      rw [hsv] at h
      injection h with h
      exact Or.inl h.symm
  | some sv =>
      rw [hsv] at h
      cases sv with
      | obj kvs =>
          simp only [pyContains, Except.instMonad, Bind.bind, Except.bind] at h
          cases hx : lookupKey kvs sf.2 with
          | none =>
              rw [hx] at h
              simp only [Option.isSome_none, Bool.false_eq_true, if_false] at h
              injection h with h
              exact Or.inl h.symm
          | some x =>
              rw [hx] at h
              simp only [Option.isSome_some, if_true, pyGetItem, hx] at h
              cases x with
              | arr xs =>
                  injection h with h
                  exact Or.inl h.symm
              | str s =>
                  by_cases hs : s = ""
                  · subst hs
                    simp only [ne_eq, not_true_eq_false, if_false, pySetItem,
                      Except.instMonad, Bind.bind, Except.bind] at h
                    injection h with h
                    exact Or.inr ⟨_, h.symm⟩
                  · simp only [ne_eq, hs, not_false_eq_true, if_true, pySetItem,
                      Except.instMonad, Bind.bind, Except.bind] at h
                    injection h with h
                    exact Or.inr ⟨_, h.symm⟩
              | num q =>
                  simp only [pySetItem, Except.instMonad, Bind.bind, Except.bind] at h
                  injection h with h
                  exact Or.inr ⟨_, h.symm⟩
              | bool b =>
                  simp only [pySetItem, Except.instMonad, Bind.bind, Except.bind] at h
                  injection h with h
                  exact Or.inr ⟨_, h.symm⟩
              | null =>
                  simp only [pySetItem, Except.instMonad, Bind.bind, Except.bind] at h
                  injection h with h
                  exact Or.inr ⟨_, h.symm⟩
              | obj kvs2 =>
                  simp only [pySetItem, Except.instMonad, Bind.bind, Except.bind] at h
                  injection h with h
                  exact Or.inr ⟨_, h.symm⟩
      | str s =>
          simp only [pyContains, Except.instMonad, Bind.bind, Except.bind] at h
          by_cases hs : (sf.2.toList <:+: s.toList)
          · simp only [hs, decide_True, if_true, pyGetItem] at h
            exact Except.noConfusion h
          · simp only [hs, decide_False, Bool.false_eq_true, if_false] at h
            injection h with h
            exact Or.inl h.symm
      | arr xs =>
          simp only [pyContains, Except.instMonad, Bind.bind, Except.bind] at h
          by_cases ha : (xs.any fun x =>
              match x with
              | Json.str s => s = sf.2
              | _ => false) = true
          · simp only [ha, if_true, pyGetItem] at h
            exact Except.noConfusion h
          · simp only [Bool.not_eq_true] at ha
            simp only [ha, Bool.false_eq_true, if_false] at h
            injection h with h
            exact Or.inl h.symm
      | num q =>
          simp only [pyContains, Except.instMonad, Bind.bind, Except.bind] at h
          exact Except.noConfusion h
      | bool b =>
          simp only [pyContains, Except.instMonad, Bind.bind, Except.bind] at h
          exact Except.noConfusion h
      | null =>
          simp only [pyContains, Except.instMonad, Bind.bind, Except.bind] at h
          exact Except.noConfusion h

/-- The array-coercion loop never touches a key that is not one of its
section keys; in particular it preserves the "metadata" entry. -/
theorem foldl_fixArrayFields_preserves :
    ∀ (fs : List (String × String)) (t t2 : List (String × Json)) (g : String),
      (∀ sf ∈ fs, sf.1 ≠ g) →
      List.foldlM fixArrayField t fs = .ok t2 →
      lookupKey t2 g = lookupKey t g := by
  intro fs
  induction fs with
  | nil =>
      intro t t2 g _ h
      simp only [List.foldlM] at h
      injection h with h
      rw [h]
  | cons sf fs ih =>
      intro t t2 g hne h
      simp only [List.foldlM] at h
      cases h1 : fixArrayField t sf with
      | error e =>
          rw [h1] at h
          simp [Except.instMonad, Bind.bind, Except.bind] at h
      | ok t1 =>
          rw [h1] at h
          simp only [Except.instMonad, Bind.bind, Except.bind] at h
          rw [ih t1 t2 g (fun sf2 hm => hne sf2 (List.mem_cons_of_mem _ hm)) h]
          rcases fixArrayField_ok_shape h1 with rfl | ⟨sv2, rfl⟩
          · rfl
          · exact lookupKey_insertKey_ne _ _ _ _
              (Ne.symm (hne sf (List.mem_cons_self _ _)))

/-- The value the score loop leaves at a checked field, as a function of the
value found there. -/
def clampVal : Option Json → Option Json
  | none => none
  | some (Json.num q) =>
      some (if q < 0 ∨ q > 1 then Json.num (1/2) else Json.num q)
  | some (Json.bool b) => some (Json.bool b)
  | some _ => some (Json.num (1/2))

/-- One score-clamping step on a dict metadata value: always succeeds, the
checked field ends up at `clampVal` of its old value, other keys are
untouched. -/
theorem clampScoreField_obj (ms : List (String × Json)) (f : String) :
    ∃ ms2, clampScoreField (Json.obj ms) f = .ok (Json.obj ms2) ∧
      lookupKey ms2 f = clampVal (lookupKey ms f) ∧
      ∀ g, g ≠ f → lookupKey ms2 g = lookupKey ms g := by
  unfold clampScoreField
  simp only [pyContains, Except.instMonad, Bind.bind, Except.bind]
  cases hx : lookupKey ms f with
  | none =>
      refine ⟨ms, ?_, ?_, fun g hg => rfl⟩
      · simp
      · simp [clampVal, hx]
  | some x =>
      simp only [Option.isSome_some, if_true, pyGetItem, hx]
      cases x with
      | num q =>
          by_cases hq : q < 0 ∨ q > 1
          · refine ⟨insertKey ms f (Json.num (1/2)), ?_, ?_, ?_⟩
            · simp [hq, pySetItem]
            · simp [clampVal, hq, lookupKey_insertKey_self]
            · intro g hg
              exact lookupKey_insertKey_ne _ _ _ _ hg
          · refine ⟨ms, ?_, ?_, fun g hg => rfl⟩
            · simp [hq]
            · simp [clampVal, hq, hx]
      | bool b =>
          exact ⟨ms, by simp, by simp [clampVal, hx], fun g hg => rfl⟩
      | str s =>
          refine ⟨insertKey ms f (Json.num (1/2)), by simp [pySetItem],
            by simp [clampVal, lookupKey_insertKey_self], ?_⟩
          intro g hg
          exact lookupKey_insertKey_ne _ _ _ _ hg
      | null =>
          refine ⟨insertKey ms f (Json.num (1/2)), by simp [pySetItem],
            by simp [clampVal, lookupKey_insertKey_self], ?_⟩
          intro g hg
          exact lookupKey_insertKey_ne _ _ _ _ hg
      | arr xs =>
          refine ⟨insertKey ms f (Json.num (1/2)), by simp [pySetItem],
            by simp [clampVal, lookupKey_insertKey_self], ?_⟩
          intro g hg
          exact lookupKey_insertKey_ne _ _ _ _ hg
      | obj kvs2 =>
          refine ⟨insertKey ms f (Json.num (1/2)), by simp [pySetItem],
            by simp [clampVal, lookupKey_insertKey_self], ?_⟩
          intro g hg
          exact lookupKey_insertKey_ne _ _ _ _ hg

/-- Running the score loop over the three score fields on a dict metadata
value succeeds and leaves each score field at `clampVal` of its old value. -/
theorem scoreFold_obj (M : List (String × Json)) :
    ∃ M3, List.foldlM clampScoreField (Json.obj M) scoreFields = .ok (Json.obj M3) ∧
      ∀ f ∈ scoreFields, lookupKey M3 f = clampVal (lookupKey M f) := by
  obtain ⟨M1, h1, h1f, h1ne⟩ := clampScoreField_obj M "confidence_score"
  obtain ⟨M2, h2, h2f, h2ne⟩ := clampScoreField_obj M1 "completeness_score"
  obtain ⟨M3, h3, h3f, h3ne⟩ := clampScoreField_obj M2 "medical_accuracy_score"
  refine ⟨M3, ?_, ?_⟩
  · simp only [scoreFields, List.foldlM, h1, h2, h3, Except.instMonad, Bind.bind,
      Except.bind]
    rfl
  · intro f hf
    simp only [scoreFields, List.mem_cons, List.mem_singleton,
      List.not_mem_nil, or_false] at hf
    rcases hf with rfl | rfl | rfl
    · rw [h3ne _ (by decide), h2ne _ (by decide), h1f]
    · rw [h3ne _ (by decide), h2f, h1ne _ (by decide)]
    · rw [h3f, h2ne _ (by decide), h1ne _ (by decide)]

/-- The behaviour of `clampVal` on the value the merge leaves at a score
field (the data's value when supplied, the template default 0.5 otherwise). -/
theorem clampVal_spec (dval : Option Json) :
    ∃ v, clampVal (some (dval.getD (Json.num (1/2)))) = some v ∧
      (∀ q : Rat, dval = some (Json.num q) → ¬(q < 0 ∨ q > 1) → v = Json.num q) ∧
      (∀ q : Rat, dval = some (Json.num q) → (q < 0 ∨ q > 1) → v = Json.num (1/2)) ∧
      (∀ b : Bool, dval = some (Json.bool b) → v = Json.bool b) ∧
      (∀ w : Json, dval = some w → (∀ q : Rat, w ≠ Json.num q) →
        (∀ b : Bool, w ≠ Json.bool b) → v = Json.num (1/2)) ∧
      (dval = none → v = Json.num (1/2)) ∧
      ((∃ q : Rat, v = Json.num q ∧ 0 ≤ q ∧ q ≤ 1) ∨ ∃ b : Bool, v = Json.bool b) := by
  cases dval with
  | none =>
      refine ⟨Json.num (1/2), by norm_num [clampVal], ?_, ?_, ?_, ?_, ?_, ?_⟩
      · intro q h
        exact Option.noConfusion h
      · intro q h
        exact Option.noConfusion h
      · intro b h
        exact Option.noConfusion h
      · intro w h
        exact Option.noConfusion h
      · intro _
        rfl
      · exact Or.inl ⟨1/2, rfl, by norm_num, by norm_num⟩
  | some w =>
      cases w with
      | num q =>
          by_cases hq : q < 0 ∨ q > 1
          · refine ⟨Json.num (1/2), by simp [clampVal, hq], ?_, ?_, ?_, ?_, ?_, ?_⟩
            · intro q2 h hn
              simp only [Option.some.injEq, Json.num.injEq] at h
              subst h
              exact absurd hq hn
            · intro q2 h _
              rfl
            · intro b h
              simp at h
            · intro w2 h _ _
              rfl
            · intro h
              exact Option.noConfusion h
            · exact Or.inl ⟨1/2, rfl, by norm_num, by norm_num⟩
          · refine ⟨Json.num q, by simp [clampVal, hq], ?_, ?_, ?_, ?_, ?_, ?_⟩
            · intro q2 h _
              simp only [Option.some.injEq, Json.num.injEq] at h
              rw [h]
            · intro q2 h hin
              simp only [Option.some.injEq, Json.num.injEq] at h
              subst h
              exact absurd hin hq
            · intro b h
              simp at h
            · intro w2 h hnq _
              exfalso
              simp only [Option.some.injEq] at h
              exact hnq q h.symm
            · intro h
              exact Option.noConfusion h
            · push_neg at hq
              exact Or.inl ⟨q, rfl, hq.1, hq.2⟩
      | bool b =>
          refine ⟨Json.bool b, by simp [clampVal], ?_, ?_, ?_, ?_, ?_, ?_⟩
          · intro q h _
            simp at h
          · intro q h _
            simp at h
          · intro b2 h
            simp only [Option.some.injEq, Json.bool.injEq] at h
            rw [h]
          · intro w2 h _ hnb
            exfalso
            simp only [Option.some.injEq] at h
            exact hnb b h.symm
          · intro h
            exact Option.noConfusion h
          · exact Or.inr ⟨b, rfl⟩
      | str s =>
          refine ⟨Json.num (1/2), by simp [clampVal], ?_, ?_, ?_, ?_, ?_, ?_⟩
          · intro q h _
            simp at h
          · intro q h _
            simp at h
          · intro b h
            simp at h
          · intro w2 h _ _
            rfl
          · intro h
            exact Option.noConfusion h
          · exact Or.inl ⟨1/2, rfl, by norm_num, by norm_num⟩
      | null =>
          refine ⟨Json.num (1/2), by simp [clampVal], ?_, ?_, ?_, ?_, ?_, ?_⟩
          · intro q h _
            simp at h
          · intro q h _
            simp at h
          · intro b h
            simp at h
          · intro w2 h _ _
            rfl
          · intro h
            exact Option.noConfusion h
          · exact Or.inl ⟨1/2, rfl, by norm_num, by norm_num⟩
      | arr xs =>
          refine ⟨Json.num (1/2), by simp [clampVal], ?_, ?_, ?_, ?_, ?_, ?_⟩
          · intro q h _
            simp at h
          · intro q h _
            simp at h
          · intro b h
            simp at h
          · intro w2 h _ _
            rfl
          · intro h
            exact Option.noConfusion h
          · exact Or.inl ⟨1/2, rfl, by norm_num, by norm_num⟩
      | obj kvs =>
          refine ⟨Json.num (1/2), by simp [clampVal], ?_, ?_, ?_, ?_, ?_, ?_⟩
          · intro q h _
            simp at h
          · intro q h _
            simp at h
          · intro b h
            simp at h
          · intro w2 h _ _
            rfl
          · intro h
            exact Option.noConfusion h
          · exact Or.inl ⟨1/2, rfl, by norm_num, by norm_num⟩

/-- The template's metadata holds 0.5 at every score field. -/
theorem templateMetadata_score (f : String) (hf : f ∈ scoreFields) :
    lookupKey templateMetadata f = some (Json.num (1/2)) := by
  simp only [scoreFields, List.mem_cons, List.mem_singleton,
    List.not_mem_nil, or_false] at hf
  rcases hf with rfl | rfl | rfl <;> rfl

/-! ## Claim C6 -/

/-- C6 (amended): after a successful `_validate_soap_structure`, each numeric
confidence field of metadata (for a model response whose metadata, when
present, is a dict with unique keys) holds a value in [0,1] or a Python bool
(which is an int 0/1): an in-range numeric value is unchanged, while an
out-of-range or non-numeric value is replaced by the default 0.5 — not by
the nearest bound of the interval — and a missing value gets the template
default 0.5. -/
theorem validate_replaces_bad_scores_with_half (d : List (String × Json))
    (f : String) (r : Json)
    (hf : f ∈ scoreFields)
    (hnodup : (d.map Prod.fst).Nodup)
    (hmeta : ∀ mv, lookupKey d "metadata" = some mv →
      ∃ dm, mv = Json.obj dm ∧ (dm.map Prod.fst).Nodup)
    (hok : validateSoapStructure (Json.obj d) = .ok r) :
    ∃ v, getPath r ["metadata", f] = some v ∧
      (∀ q : Rat, getPath (Json.obj d) ["metadata", f] = some (Json.num q) →
        ¬(q < 0 ∨ q > 1) → v = Json.num q) ∧
      (∀ q : Rat, getPath (Json.obj d) ["metadata", f] = some (Json.num q) →
        (q < 0 ∨ q > 1) → v = Json.num (1/2)) ∧
      (∀ b : Bool, getPath (Json.obj d) ["metadata", f] = some (Json.bool b) →
        v = Json.bool b) ∧
      (∀ w : Json, getPath (Json.obj d) ["metadata", f] = some w →
        (∀ q : Rat, w ≠ Json.num q) → (∀ b : Bool, w ≠ Json.bool b) →
        v = Json.num (1/2)) ∧
      (getPath (Json.obj d) ["metadata", f] = none → v = Json.num (1/2)) ∧
      ((∃ q : Rat, v = Json.num q ∧ 0 ≤ q ∧ q ≤ 1) ∨ ∃ b : Bool, v = Json.bool b) := by
  replace hok : (do
      let cleaned ← validateSpecificFields (mergeObj requiredStructure d)
      Except.ok (Json.obj cleaned) : Except String Json) = Except.ok r := hok
  cases hval : validateSpecificFields (mergeObj requiredStructure d) with
  | error e =>
      rw [hval] at hok
      simp [Except.instMonad, Bind.bind, Except.bind] at hok
  | ok cleaned =>
      rw [hval] at hok
      simp only [Except.instMonad, Bind.bind, Except.bind] at hok
      injection hok with hok
      subst hok
      unfold validateSpecificFields at hval
      cases hfold : List.foldlM fixArrayField (mergeObj requiredStructure d)
          arrayFields with
      | error e =>
          rw [hfold] at hval
          simp [Except.instMonad, Bind.bind, Except.bind] at hval
      | ok t2 =>
          rw [hfold] at hval
          simp only [Except.instMonad, Bind.bind, Except.bind] at hval
          have hpres : lookupKey t2 "metadata"
              = lookupKey (mergeObj requiredStructure d) "metadata" :=
            foldl_fixArrayFields_preserves arrayFields _ t2 "metadata"
              (by decide) hfold
          obtain ⟨M, dval, hM, hdval, hMX⟩ :
              ∃ (M : List (String × Json)) (dval : Option Json),
                lookupKey t2 "metadata" = some (Json.obj M) ∧
                getPath (Json.obj d) ["metadata", f] = dval ∧
                lookupKey M f = some (dval.getD (Json.num (1/2))) := by
            cases hdm : lookupKey d "metadata" with
            | none =>
                refine ⟨templateMetadata, none, ?_, ?_, ?_⟩
                · rw [hpres, lookupKey_mergeObj_of_not_mem _ _ _ hdm]
                  rfl
                · rw [getPath_cons_obj, hdm, Option.none_bind]
                · simp [templateMetadata_score f hf]
            | some mv =>
                obtain ⟨dm, rfl, hdmnodup⟩ := hmeta mv hdm
                cases hdf : lookupKey dm f with
                | none =>
                    refine ⟨mergeObj templateMetadata dm, none, ?_, ?_, ?_⟩
                    · rw [hpres, lookupKey_mergeObj_of_mem _ _ _ _ hnodup hdm]
                      rw [show lookupKey requiredStructure "metadata"
                          = some (Json.obj templateMetadata) from rfl]
                      rw [mergeAt_obj_obj]
                    · rw [getPath_cons_obj, hdm, Option.some_bind,
                        getPath_cons_obj, hdf, Option.none_bind]
                    · rw [lookupKey_mergeObj_of_not_mem _ _ _ hdf]
                      simp [templateMetadata_score f hf]
                | some dv =>
                    refine ⟨mergeObj templateMetadata dm, some dv, ?_, ?_, ?_⟩
                    · rw [hpres, lookupKey_mergeObj_of_mem _ _ _ _ hnodup hdm]
                      rw [show lookupKey requiredStructure "metadata"
                          = some (Json.obj templateMetadata) from rfl]
                      rw [mergeAt_obj_obj]
                    · rw [getPath_cons_obj, hdm, Option.some_bind,
                        getPath_cons_obj, hdf, Option.some_bind, getPath_nil]
                    · rw [lookupKey_mergeObj_of_mem _ _ _ _ hdmnodup hdf,
                        templateMetadata_score f hf,
                        mergeAt_some_nonobj
                          (show (Json.num (1/2)).isObj = false from rfl) dv]
                      rfl
          rw [hM] at hval
          obtain ⟨M3, hM3, hM3f⟩ := scoreFold_obj M
          simp only [hM3] at hval
          injection hval with hval
          subst hval
          obtain ⟨v, hv0, c1, c2, c3, c4, c5, c6⟩ := clampVal_spec dval
          refine ⟨v, ?_, ?_, ?_, ?_, ?_, ?_, c6⟩
          · rw [getPath_cons_obj, lookupKey_insertKey_self, Option.some_bind,
              getPath_cons_obj, hM3f f hf, hMX, hv0, Option.some_bind,
              getPath_nil]
          · rw [hdval]
            exact c1
          · rw [hdval]
            exact c2
          · rw [hdval]
            exact c3
          · rw [hdval]
            exact c4
          · rw [hdval]
            exact c5

/-- A model response whose confidence_score is 2, out of range. -/
def exBadScore : List (String × Json) :=
  [("metadata", Json.obj [("confidence_score", Json.num 2)])]

/-- The merge of `exBadScore` into the template (before field cleaning). -/
def exBadScoreMerged : List (String × Json) :=
  [("subjective", Json.obj [
      ("chief_complaint", Json.str ""),
      ("history_present_illness", Json.str ""),
      ("review_of_systems", Json.str ""),
      ("past_medical_history", Json.str ""),
      ("medications", Json.str ""),
      ("allergies", Json.str ""),
      ("social_history", Json.str ""),
      ("family_history", Json.str "")]),
   ("objective", Json.obj [
      ("vital_signs", Json.obj [
        ("blood_pressure", Json.str ""),
        ("heart_rate", Json.str ""),
        ("temperature", Json.str ""),
        ("respiratory_rate", Json.str ""),
        ("oxygen_saturation", Json.str ""),
        ("weight", Json.str ""),
        ("height", Json.str ""),
        ("bmi", Json.str "")]),
      ("physical_examination", Json.str ""),
      ("laboratory_results", Json.str ""),
      ("imaging_results", Json.str "")]),
   ("assessment", Json.obj [
      ("primary_diagnosis", Json.str ""),
      ("icd10_codes", Json.arr []),
      ("differential_diagnoses", Json.arr []),
      ("clinical_impression", Json.str "")]),
   ("plan", Json.obj [
      ("medications", Json.arr []),
      ("procedures", Json.arr []),
      ("laboratory_tests", Json.arr []),
      ("imaging_studies", Json.arr []),
      ("follow_up", Json.str ""),
      ("patient_education", Json.str ""),
      ("referrals", Json.arr [])]),
   ("metadata", Json.obj [
      ("confidence_score", Json.num 2),
      ("completeness_score", Json.num (1/2)),
      ("medical_accuracy_score", Json.num (1/2)),
      ("missing_elements", Json.arr [])])]

/-- The metadata of `exBadScoreMerged`. -/
def exBadScoreMeta : List (String × Json) :=
  [("confidence_score", Json.num 2), ("completeness_score", Json.num (1/2)),
   ("medical_accuracy_score", Json.num (1/2)), ("missing_elements", Json.arr [])]

/-- Full evaluation of the coercion on `exBadScore`: the out-of-range score 2
comes back as the default 0.5, so the result is exactly the template. -/
theorem exBadScore_validate :
    validateSoapStructure (Json.obj exBadScore) = .ok (Json.obj requiredStructure) := by
  have h1 : mergeObj requiredStructure exBadScore = exBadScoreMerged := by
    simp [mergeObj, mergeAt, insertKey, lookupKey, exBadScore, requiredStructure,
      templateMetadata, exBadScoreMerged]
  have h2 : List.foldlM fixArrayField exBadScoreMerged arrayFields
      = Except.ok exBadScoreMerged := by
    simp [List.foldlM, fixArrayField, arrayFields, pyContains, pyGetItem, pySetItem,
      lookupKey, exBadScoreMerged, Except.instMonad, Bind.bind, Except.bind,
      Except.pure]
  have h3 : lookupKey exBadScoreMerged "metadata" = some (Json.obj exBadScoreMeta) := by
    simp [exBadScoreMerged, exBadScoreMeta, lookupKey]
  have hc : ((2:Rat) < 0 ∨ (2:Rat) > 1) = True := by norm_num
  have hd : ¬((1/2:Rat) < 0 ∨ (1/2:Rat) > 1) := by norm_num
  have h4 : List.foldlM clampScoreField (Json.obj exBadScoreMeta) scoreFields
      = Except.ok (Json.obj templateMetadata) := by
    simp [List.foldlM, clampScoreField, scoreFields, pyContains, pyGetItem, pySetItem,
      lookupKey, insertKey, exBadScoreMeta, templateMetadata, hc, hd,
      Except.instMonad, Bind.bind, Except.bind, Except.pure]
  have h5 : insertKey exBadScoreMerged "metadata" (Json.obj templateMetadata)
      = requiredStructure := by
    simp [insertKey, exBadScoreMerged, requiredStructure]
  show (do
      let cleaned ← validateSpecificFields (mergeObj requiredStructure exBadScore)
      Except.ok (Json.obj cleaned) : Except String Json) = _
  rw [h1]
  unfold validateSpecificFields
  rw [h2]
  simp only [Except.instMonad, Bind.bind, Except.bind, h3, h4, h5]

/-- C6 counterexample: the claim says an out-of-range confidence value is
replaced by the nearest bound of [0,1] — for the value 2 that would be 1 —
but the code replaces it by the default 0.5. -/
theorem clamp_out_of_range_not_nearest_bound :
    validateSoapStructure (Json.obj exBadScore) = .ok (Json.obj requiredStructure) ∧
    getPath (Json.obj exBadScore) ["metadata", "confidence_score"]
      = some (Json.num 2) ∧
    getPath (Json.obj requiredStructure) ["metadata", "confidence_score"]
      = some (Json.num (1/2)) ∧
    Json.num (1/2) ≠ Json.num 1 := by
  refine ⟨exBadScore_validate, rfl, rfl, ?_⟩
  intro h
  injection h with h2
  norm_num at h2

/-- Witness for C6 (amended) at the out-of-range input 2. -/
theorem validate_replaces_bad_scores_with_half_witness :
    ("confidence_score" ∈ scoreFields ∧
      ((exBadScore.map Prod.fst).Nodup) ∧
      (∀ mv, lookupKey exBadScore "metadata" = some mv →
        ∃ dm, mv = Json.obj dm ∧ (dm.map Prod.fst).Nodup) ∧
      validateSoapStructure (Json.obj exBadScore)
        = .ok (Json.obj requiredStructure)) ∧
    (∃ v, getPath (Json.obj requiredStructure) ["metadata", "confidence_score"]
        = some v ∧
      (∀ q : Rat, getPath (Json.obj exBadScore) ["metadata", "confidence_score"]
          = some (Json.num q) → ¬(q < 0 ∨ q > 1) → v = Json.num q) ∧
      (∀ q : Rat, getPath (Json.obj exBadScore) ["metadata", "confidence_score"]
          = some (Json.num q) → (q < 0 ∨ q > 1) → v = Json.num (1/2)) ∧
      (∀ b : Bool, getPath (Json.obj exBadScore) ["metadata", "confidence_score"]
          = some (Json.bool b) → v = Json.bool b) ∧
      (∀ w : Json, getPath (Json.obj exBadScore) ["metadata", "confidence_score"]
          = some w → (∀ q : Rat, w ≠ Json.num q) → (∀ b : Bool, w ≠ Json.bool b) →
          v = Json.num (1/2)) ∧
      (getPath (Json.obj exBadScore) ["metadata", "confidence_score"] = none →
        v = Json.num (1/2)) ∧
      ((∃ q : Rat, v = Json.num q ∧ 0 ≤ q ∧ q ≤ 1) ∨ ∃ b : Bool, v = Json.bool b)) :=
  ⟨⟨by decide, by simp [exBadScore],
    fun mv h => by
      simp only [exBadScore, lookupKey, if_pos rfl] at h
      injection h with h2
      exact ⟨_, h2.symm, by simp⟩,
    exBadScore_validate⟩,
    validate_replaces_bad_scores_with_half exBadScore "confidence_score"
      (Json.obj requiredStructure) (by decide) (by simp [exBadScore])
      (fun mv h => by
        simp only [exBadScore, lookupKey, if_pos rfl] at h
        injection h with h2
        exact ⟨_, h2.symm, by simp⟩)
      exBadScore_validate⟩

/-!
# Part C: `src/voice-to-soap/backend/transcriber.py`

Embedding of `MedicalAudioTranscriber`: `transcribe_audio_file`,
`_process_recognition_result`, `_calculate_confidence`,
`_count_medical_terms`, `_assess_transcription_quality` and
`_create_error_result`. The Azure SDK call (`recognize_once`) and the
filesystem are modelled by an environment record; a raised exception is an
`Except.error` carrying `str(e)`. Wall-clock readings are abstract `Rat`
parameters (the `round(., 2)` display rounding of measured times is not
modelled). Python floats are modelled by `Rat`.
-/

/-- Python `text.split()`: split on whitespace runs, dropping empty pieces. -/
def pySplitWhitespace (s : String) : List String :=
  (s.split Char.isWhitespace).filter (fun w => w ≠ "")

/-- Python `s.strip()`: drop leading and trailing whitespace. -/
def pyStrip (s : String) : String :=
  String.mk (((s.toList.dropWhile Char.isWhitespace).reverse.dropWhile
    Char.isWhitespace).reverse)

/-- Python `hay.count(needle)` for a non-empty needle: non-overlapping
occurrences scanning left to right (an empty needle counts len+1). -/
def countOcc (needle hay : List Char) : Nat :=
  if hn : needle = [] then hay.length + 1
  else
    match hay with
    | [] => 0
    | c :: rest =>
        if needle.isPrefixOf (c :: rest) then
          1 + countOcc needle ((c :: rest).drop needle.length)
        else countOcc needle rest
termination_by hay.length
decreasing_by
  · simp only [List.length_drop, List.length_cons]
    have : 1 ≤ needle.length := List.length_pos.mpr hn
    omega
  · simp only [List.length_cons]
    omega

/-- The `medical_terms` table of `_count_medical_terms`. -/
def medicalTerms : List String :=
  ["blood pressure", "heart rate", "respiratory rate", "temperature", "pulse",
   "systolic", "diastolic", "bpm", "mmhg", "celsius", "fahrenheit",
   "chest pain", "shortness of breath", "nausea", "vomiting", "dizziness",
   "headache", "abdominal pain", "fever", "fatigue", "cough",
   "cardiovascular", "respiratory", "neurological", "gastrointestinal",
   "musculoskeletal", "dermatologic", "genitourinary", "endocrine",
   "diagnosis", "treatment", "medication", "prescription", "dosage",
   "symptoms", "examination", "assessment", "history", "patient",
   "chronic", "acute", "bilateral", "unilateral", "anterior", "posterior",
   "x-ray", "ct scan", "mri", "ultrasound", "ekg", "ecg", "blood test",
   "biopsy", "surgery", "procedure"]

/-- `_count_medical_terms`. -/
def countMedicalTerms (text : String) : Nat :=
  if text = "" then 0
  else
    (medicalTerms.map (fun term =>
      if term.toList <:+: text.toLower.toList then
        countOcc term.toList text.toLower.toList
      else 0)).sum

/-- The `structure_indicators` of `_assess_structure`. -/
def structureIndicators : List String :=
  ["chief complaint", "history", "physical exam", "assessment", "plan",
   "subjective", "objective", "vital signs", "medications", "allergies"]

/-- `_assess_structure`. -/
def assessStructure (text : String) : Rat :=
  min (((structureIndicators.filter
    (fun i => i.toList <:+: text.toLower.toList)).length : Rat) / 5) 1

/-- The `completeness_indicators` of the transcriber's `_assess_completeness`. -/
def completenessIndicators : List String :=
  ["patient", "age", "year", "presents", "complain", "history",
   "exam", "normal", "abnormal", "plan", "follow", "return"]

/-- The transcriber's `_assess_completeness`. -/
def assessTranscriptCompleteness (text : String) : Rat :=
  min (((completenessIndicators.filter
    (fun i => i.toList <:+: text.toLower.toList)).length : Rat) / 8) 1

/-- `_generate_quality_recommendations` (transcriber). -/
def transcriptionRecommendations (lengthScore medDensity structureScore
    completenessScore : Rat) : List String :=
  let recs :=
    (if lengthScore < 3/10 then
      ["Consider speaking for longer duration for better context"] else []) ++
    (if medDensity < 1/10 then
      ["Include more specific medical terminology"] else []) ++
    (if structureScore < 4/10 then
      ["Follow SOAP note structure: Subjective, Objective, Assessment, Plan"]
     else []) ++
    (if completenessScore < 4/10 then
      ["Include patient demographics and complete examination findings"] else [])
  if recs = [] then
    ["Excellent transcription quality - no improvements needed"]
  else recs

/-- The result of `_assess_transcription_quality` (either the empty-text
shape or the scored shape; display rounding of the score not modelled). -/
inductive QualityAssessment where
  | emptyText  -- overall "poor", issues ["empty_transcription"]
  | failed     -- overall "failed", issues ["transcription_failed"] (error dict)
  | scored (overall : String) (score : Rat)
      (lengthScore medDensity structureScore completenessScore : Rat)
      (recommendations : List String)

/-- `_assess_transcription_quality`. -/
def assessTranscriptionQuality (text : String) : QualityAssessment :=
  if text = "" then .emptyText
  else
    let lengthScore := min ((text.length : Rat) / 200) 1
    let medDensity :=
      (countMedicalTerms text : Rat) / (max (pySplitWhitespace text).length 1 : Rat)
    let structureScore := assessStructure text
    let completenessScore := assessTranscriptCompleteness text
    let overallScore :=
      (lengthScore + medDensity + structureScore + completenessScore) / 4
    let overall :=
      if overallScore ≥ 7/10 then "excellent"
      else if overallScore ≥ 5/10 then "good"
      else if overallScore ≥ 3/10 then "fair"
      else "poor"
    .scored overall overallScore lengthScore medDensity structureScore
      completenessScore
      (transcriptionRecommendations lengthScore medDensity structureScore
        completenessScore)

/-- The `reason` of an Azure `SpeechRecognitionResult`. -/
inductive ResultReason where
  | recognizedSpeech
  | noMatch
  | canceled (creason : String) (errorDetails : Option String)
  | other (description : String)

/-- The "NBest" value inside the vendor's detailed-JSON property. Each item
contributes `item.get("Confidence", 0)`. A truthy non-iterable-of-dicts
value raises a TypeError that only the outer `except Exception` catches. -/
inductive NBestValue where
  | items (cs : List (Option Rat))
  | notIterable

/-- The `SpeechServiceResponse_JsonResult` property value: unparseable JSON
(`json.loads` raises) or parsed, with the "NBest" key present or absent (a
falsy "NBest" value such as an empty list fails the truthiness test exactly
like an absent key and is modelled as `items []` or `none`). -/
inductive DetailedProp where
  | malformed
  | parsed (nbest : Option NBestValue)

/-- The slice of an Azure `SpeechRecognitionResult` that the transcriber
reads. `jsonProperty = none` models `properties.get(...)` returning None. -/
structure SpeechResult where
  reason : ResultReason
  text : String
  jsonProperty : Option DetailedProp
  resultId : String

/-- The length-based fallback heuristic of `_calculate_confidence`. -/
def confidenceFallback (text : String) : String :=
  if text ≠ "" then
    if text.length > 100 ∧ (pySplitWhitespace text).length > 20 then "high"
    else if text.length > 50 ∧ (pySplitWhitespace text).length > 10 then "medium"
    else "low"
  else "low"

/-- `_calculate_confidence`. The Azure result object always has a
`properties` attribute. NBest averaging on a non-empty list cannot raise, so
the outer `except` ("medium") fires only for the truthy non-iterable NBest
value. -/
def calcConfidence (r : SpeechResult) : String :=
  match r.jsonProperty with
  | some (DetailedProp.parsed (some (NBestValue.items cs))) =>
      if cs.isEmpty then confidenceFallback r.text
      else
        let confs := cs.map (fun c => c.getD 0)
        let avg := confs.sum / (confs.length : Rat)
        if avg ≥ 8/10 then "high"
        else if avg ≥ 6/10 then "medium"
        else "low"
  | some (DetailedProp.parsed (some NBestValue.notIterable)) => "medium"
  | _ => confidenceFallback r.text

/-- The file metadata attached by `transcribe_audio_file`. -/
structure FileMetadata where
  filename : String
  file_size_bytes : Nat
  processing_time_seconds : Rat

/-- The successful transcription dict (its `"success"` entry is True). -/
structure TranscriptionSuccess where
  transcription : String
  confidence_score : String
  session_id : Option String
  processing_time_seconds : Rat
  word_count : Nat
  medical_terms_detected : Nat
  quality_assessment : QualityAssessment
  azure_result_id : String
  timestamp : Rat
  detailed_results : Option DetailedProp := none
  file_metadata : Option FileMetadata := none

/-- The error dict built by `_create_error_result` (`"success"` is False). -/
structure TranscriptionError where
  transcription : String
  confidence_score : String
  session_id : Option String
  processing_time_seconds : Rat
  error_message : String
  word_count : Nat
  medical_terms_detected : Nat
  quality_assessment : QualityAssessment
  timestamp : Rat
  file_metadata : Option FileMetadata := none

/-- A transcription result dict; the constructor carries the `success` flag. -/
inductive TranscribeResult where
  | success (s : TranscriptionSuccess)
  | failure (e : TranscriptionError)

/-- The dict's `"success"` entry. -/
def TranscribeResult.successFlag : TranscribeResult → Bool
  | .success _ => true
  | .failure _ => false

/-- `_create_error_result` (transcriber). -/
def createErrorResult (errorMessage : String) (sessionId : Option String)
    (processingTime now : Rat) : TranscriptionError :=
  { transcription := ""
    confidence_score := "low"
    session_id := sessionId
    processing_time_seconds := processingTime
    error_message := errorMessage
    word_count := 0
    medical_terms_detected := 0
    quality_assessment := .failed
    timestamp := now }

/-- `_process_recognition_result`. -/
def processRecognitionResult (r : SpeechResult) (sessionId : Option String)
    (processingTime now : Rat) : TranscribeResult :=
  match r.reason with
  | ResultReason.recognizedSpeech =>
      .success {
        transcription := r.text
        confidence_score := calcConfidence r
        session_id := sessionId
        processing_time_seconds := processingTime
        word_count := if r.text ≠ "" then (pySplitWhitespace r.text).length else 0
        medical_terms_detected := countMedicalTerms r.text
        quality_assessment := assessTranscriptionQuality r.text
        azure_result_id := r.resultId
        timestamp := now
        detailed_results := r.jsonProperty }
  | ResultReason.noMatch =>
      .failure (createErrorResult "No speech was recognized in the audio"
        sessionId processingTime now)
  | ResultReason.canceled creason cdetails =>
      .failure (createErrorResult
        ("Speech recognition canceled: " ++ creason ++
          (match cdetails with
           | some dtl => " - " ++ dtl
           | none => ""))
        sessionId processingTime now)
  | ResultReason.other desc =>
      .failure (createErrorResult ("Unexpected recognition result: " ++ desc)
        sessionId processingTime now)

/-- Log events emitted through `structlog`. -/
inductive LogLevel where
  | info
  | warning
  | logError
deriving DecidableEq

structure LogEvent where
  level : LogLevel
  message : String
deriving DecidableEq

/-- The environment of one `transcribe_audio_file` call: the filesystem
state and the outcome of the Azure SDK recognition call (`Except.error e`
models a raised exception with message `e`). -/
structure TranscriberEnv where
  fileExists : Bool
  fileSize : Nat
  fileName : String
  recognize : Except String SpeechResult
  processingTime : Rat
  now : Rat

/-- Attach the file metadata to whatever dict came back (Python mutates the
dict returned by `_process_recognition_result`, error dicts included). -/
def withFileMetadata (tr : TranscribeResult) (fm : FileMetadata) :
    TranscribeResult :=
  match tr with
  | .success s => .success { s with file_metadata := some fm }
  | .failure e => .failure { e with file_metadata := some fm }

/-- `transcribe_audio_file`: any exception inside the body (missing file,
SDK failure) is caught by the broad `except`, logged, and turned into the
`_create_error_result` dict. -/
def transcribe_audio_file (env : TranscriberEnv) (sessionId : Option String) :
    TranscribeResult × List LogEvent :=
  if env.fileExists = false then
    (.failure (createErrorResult ("Audio file not found: " ++ env.fileName)
        sessionId env.processingTime env.now),
      [⟨LogLevel.logError, "Audio transcription failed"⟩])
  else
    match env.recognize with
    | .error e =>
        (.failure (createErrorResult e sessionId env.processingTime env.now),
          [⟨LogLevel.info, "Starting audio transcription"⟩,
           ⟨LogLevel.logError, "Audio transcription failed"⟩])
    | .ok r =>
        (withFileMetadata
            (processRecognitionResult r sessionId env.processingTime env.now)
            ⟨env.fileName, env.fileSize, env.processingTime⟩,
          [⟨LogLevel.info, "Starting audio transcription"⟩,
           ⟨LogLevel.info, "Audio transcription completed successfully"⟩])

/-! ## `generate_soap_note` (`src/voice-to-soap/backend/soap_generator.py`) -/

/-- Token usage reported by the OpenAI SDK. -/
structure LLMUsage where
  total_tokens : Nat
  prompt_tokens : Nat
  completion_tokens : Nat

/-- How the model's response content parses: `json.loads` succeeds, or the
`_fix_json_response` retry after stripping markdown fences succeeds, or both
fail and the hard-coded minimal structure is used — `_fix_json_response`
never raises. -/
inductive ParseOutcome where
  | parsed (j : Json)
  | fixedParse (j : Json)
  | unfixable

/-- The minimal structure `_fix_json_response` returns when the JSON cannot
be repaired. -/
def fixJsonFallback : Json :=
  Json.obj [
    ("subjective", Json.obj [
      ("chief_complaint", Json.str "Parse error - please review transcription")]),
    ("objective", Json.obj [
      ("vital_signs", Json.obj []),
      ("physical_examination", Json.str "Parse error")]),
    ("assessment", Json.obj [
      ("primary_diagnosis", Json.str "Unable to process"),
      ("icd10_codes", Json.arr [])]),
    ("plan", Json.obj [
      ("medications", Json.arr []),
      ("follow_up", Json.str "Review needed")]),
    ("metadata", Json.obj [
      ("confidence_score", Json.num (1/10)),
      ("completeness_score", Json.num (1/10))])]

/-- `_process_ai_response`: parse (never raises), validate the SOAP
structure; any error raised while processing is re-raised as
`RuntimeError("AI response processing failed: ...")`. The quality-metrics
and processing-metadata entries attached to the successful dict are
diagnostic insertions no claim concerns and are not modelled. -/
def processAiResponse (parse : ParseOutcome) : Except String Json :=
  let soapData :=
    match parse with
    | ParseOutcome.parsed j => j
    | ParseOutcome.fixedParse j => j
    | ParseOutcome.unfixable => fixJsonFallback
  match validateSoapStructure soapData with
  | .ok validated => .ok validated
  | .error e => .error ("AI response processing failed: " ++ e)

/-- The error dict built by the generator's `_create_error_result`:
`"success": False`, the error message, and processing metadata. -/
structure SoapErrorResult where
  error_message : String
  session_id : Option String
  processing_time_seconds : Rat
  timestamp : Rat

/-- A `generate_soap_note` result dict. -/
inductive SoapGenResult where
  | success (soap : Json)
  | failure (err : SoapErrorResult)

/-- `result.get("success", True)`: the successful dict has no `"success"`
key and defaults to True; the error dict carries False. -/
def SoapGenResult.successFlag : SoapGenResult → Bool
  | .success _ => true
  | .failure _ => false

/-- The environment of one `generate_soap_note` call: the OpenAI SDK call
outcome (`Except.error e` models a raised exception with message `e`),
paired with how the returned content parses. -/
structure GenEnv where
  llmCall : Except String (ParseOutcome × LLMUsage)
  processingTime : Rat
  now : Rat

/-- `generate_soap_note`: validate the transcription (`len(strip()) < 10`
raises ValueError), call the LLM, process the response; any exception in
the body is caught by the broad `except`, logged, and returned as the
`_create_error_result` dict. -/
def generate_soap_note (transcription : String) (env : GenEnv)
    (sessionId : Option String) : SoapGenResult × List LogEvent :=
  if (pyStrip transcription).length < 10 then
    (.failure {
        error_message := "Transcription too short or empty for medical documentation"
        session_id := sessionId
        processing_time_seconds := env.processingTime
        timestamp := env.now },
      [⟨LogLevel.logError, "SOAP note generation failed"⟩])
  else
    match env.llmCall with
    | .error e =>
        (.failure {
            error_message := e
            session_id := sessionId
            processing_time_seconds := env.processingTime
            timestamp := env.now },
          [⟨LogLevel.info, "Starting SOAP note generation"⟩,
           ⟨LogLevel.logError, "SOAP note generation failed"⟩])
    | .ok (parse, _usage) =>
        match processAiResponse parse with
        | .error e =>
            (.failure {
                error_message := e
                session_id := sessionId
                processing_time_seconds := env.processingTime
                timestamp := env.now },
              [⟨LogLevel.info, "Starting SOAP note generation"⟩,
               ⟨LogLevel.logError, "SOAP note generation failed"⟩])
        | .ok validated =>
            (.success validated,
              [⟨LogLevel.info, "Starting SOAP note generation"⟩,
               ⟨LogLevel.info, "SOAP note generation completed successfully"⟩])

/-! ## Claim C9 -/

/-- C9 (confirmed): every failure inside the transcription or
SOAP-generation entry points — a missing audio file, a raised SDK exception,
a too-short transcription, a raised LLM-call exception, or a response-
processing error — is not propagated: the function returns an error dict
with success False and the error message, and logs the error. -/
theorem pipeline_failures_return_error_dicts :
    (∀ (env : TranscriberEnv) (sid : Option String),
      env.fileExists = false →
      ∃ err logs, transcribe_audio_file env sid = (.failure err, logs) ∧
        (TranscribeResult.failure err).successFlag = false ∧
        err.error_message = "Audio file not found: " ++ env.fileName ∧
        LogEvent.mk LogLevel.logError "Audio transcription failed" ∈ logs) ∧
    (∀ (env : TranscriberEnv) (sid : Option String) (e : String),
      env.fileExists = true →
      env.recognize = .error e →
      ∃ err logs, transcribe_audio_file env sid = (.failure err, logs) ∧
        (TranscribeResult.failure err).successFlag = false ∧
        err.error_message = e ∧
        LogEvent.mk LogLevel.logError "Audio transcription failed" ∈ logs) ∧
    (∀ (t : String) (env : GenEnv) (sid : Option String),
      (pyStrip t).length < 10 →
      ∃ err logs, generate_soap_note t env sid = (.failure err, logs) ∧
        (SoapGenResult.failure err).successFlag = false ∧
        err.error_message
          = "Transcription too short or empty for medical documentation" ∧
        LogEvent.mk LogLevel.logError "SOAP note generation failed" ∈ logs) ∧
    (∀ (t : String) (env : GenEnv) (sid : Option String) (e : String),
      ¬ (pyStrip t).length < 10 →
      env.llmCall = .error e →
      ∃ err logs, generate_soap_note t env sid = (.failure err, logs) ∧
        (SoapGenResult.failure err).successFlag = false ∧
        err.error_message = e ∧
        LogEvent.mk LogLevel.logError "SOAP note generation failed" ∈ logs) ∧
    (∀ (t : String) (env : GenEnv) (sid : Option String) (parse : ParseOutcome)
        (usage : LLMUsage) (e : String),
      ¬ (pyStrip t).length < 10 →
      env.llmCall = .ok (parse, usage) →
      processAiResponse parse = .error e →
      ∃ err logs, generate_soap_note t env sid = (.failure err, logs) ∧
        (SoapGenResult.failure err).successFlag = false ∧
        err.error_message = e ∧
        LogEvent.mk LogLevel.logError "SOAP note generation failed" ∈ logs) := by
  refine ⟨?_, ?_, ?_, ?_, ?_⟩
  · intro env sid h
    refine ⟨createErrorResult ("Audio file not found: " ++ env.fileName) sid
        env.processingTime env.now,
      [⟨LogLevel.logError, "Audio transcription failed"⟩], ?_, rfl, rfl, ?_⟩
    · simp [transcribe_audio_file, h]
    · simp
  · intro env sid e h1 h2
    refine ⟨createErrorResult e sid env.processingTime env.now,
      [⟨LogLevel.info, "Starting audio transcription"⟩,
       ⟨LogLevel.logError, "Audio transcription failed"⟩], ?_, rfl, rfl, ?_⟩
    · simp [transcribe_audio_file, h1, h2]
    · simp
  · intro t env sid h
    refine ⟨⟨"Transcription too short or empty for medical documentation", sid,
        env.processingTime, env.now⟩,
      [⟨LogLevel.logError, "SOAP note generation failed"⟩], ?_, rfl, rfl, ?_⟩
    · simp [generate_soap_note, h]
    · simp
  · intro t env sid e h1 h2
    refine ⟨⟨e, sid, env.processingTime, env.now⟩,
      [⟨LogLevel.info, "Starting SOAP note generation"⟩,
       ⟨LogLevel.logError, "SOAP note generation failed"⟩], ?_, rfl, rfl, ?_⟩
    · simp [generate_soap_note, h1, h2]
    · simp
  · intro t env sid parse usage e h1 h2 h3
    refine ⟨⟨e, sid, env.processingTime, env.now⟩,
      [⟨LogLevel.info, "Starting SOAP note generation"⟩,
       ⟨LogLevel.logError, "SOAP note generation failed"⟩], ?_, rfl, rfl, ?_⟩
    · simp [generate_soap_note, h1, h2, h3]
    · simp

/-- Witness for C9, exercising every failure source on concrete inputs. -/
theorem pipeline_failures_return_error_dicts_witness :
    ((TranscriberEnv.mk false 0 "a.wav" (.error "boom") 1 2).fileExists = false ∧
      (TranscriberEnv.mk true 0 "a.wav" (.error "Azure down") 1 2).fileExists = true ∧
      (TranscriberEnv.mk true 0 "a.wav" (.error "Azure down") 1 2).recognize
        = .error "Azure down" ∧
      (pyStrip "").length < 10 ∧
      ¬ (pyStrip "a sufficiently long dictation").length < 10 ∧
      (GenEnv.mk (.error "OpenAI down") 1 2).llmCall = .error "OpenAI down" ∧
      (GenEnv.mk (.ok (ParseOutcome.parsed (Json.str "oops"), ⟨0, 0, 0⟩)) 1 2).llmCall
        = .ok (ParseOutcome.parsed (Json.str "oops"), ⟨0, 0, 0⟩) ∧
      processAiResponse (ParseOutcome.parsed (Json.str "oops"))
        = .error "AI response processing failed: AttributeError: no attribute items") ∧
    (∃ err logs, transcribe_audio_file (TranscriberEnv.mk false 0 "a.wav" (.error "boom") 1 2)
        none = (.failure err, logs) ∧
      (TranscribeResult.failure err).successFlag = false ∧
      err.error_message = "Audio file not found: " ++
        (TranscriberEnv.mk false 0 "a.wav" (.error "boom") 1 2).fileName ∧
      LogEvent.mk LogLevel.logError "Audio transcription failed" ∈ logs) ∧
    (∃ err logs, transcribe_audio_file (TranscriberEnv.mk true 0 "a.wav" (.error "Azure down") 1 2)
        none = (.failure err, logs) ∧
      (TranscribeResult.failure err).successFlag = false ∧
      err.error_message = "Azure down" ∧
      LogEvent.mk LogLevel.logError "Audio transcription failed" ∈ logs) ∧
    (∃ err logs, generate_soap_note "" (GenEnv.mk (.error "OpenAI down") 1 2) none
        = (.failure err, logs) ∧
      (SoapGenResult.failure err).successFlag = false ∧
      err.error_message
        = "Transcription too short or empty for medical documentation" ∧
      LogEvent.mk LogLevel.logError "SOAP note generation failed" ∈ logs) ∧
    (∃ err logs, generate_soap_note "a sufficiently long dictation"
        (GenEnv.mk (.error "OpenAI down") 1 2) none = (.failure err, logs) ∧
      (SoapGenResult.failure err).successFlag = false ∧
      err.error_message = "OpenAI down" ∧
      LogEvent.mk LogLevel.logError "SOAP note generation failed" ∈ logs) ∧
    (∃ err logs, generate_soap_note "a sufficiently long dictation"
        (GenEnv.mk (.ok (ParseOutcome.parsed (Json.str "oops"), ⟨0, 0, 0⟩)) 1 2) none
        = (.failure err, logs) ∧
      (SoapGenResult.failure err).successFlag = false ∧
      err.error_message = "AI response processing failed: AttributeError: no attribute items" ∧
      LogEvent.mk LogLevel.logError "SOAP note generation failed" ∈ logs) :=
  ⟨⟨rfl, rfl, rfl, by decide, by decide, rfl, rfl, rfl⟩,
    pipeline_failures_return_error_dicts.1
      (TranscriberEnv.mk false 0 "a.wav" (.error "boom") 1 2) none rfl,
    pipeline_failures_return_error_dicts.2.1
      (TranscriberEnv.mk true 0 "a.wav" (.error "Azure down") 1 2) none
      "Azure down" rfl rfl,
    pipeline_failures_return_error_dicts.2.2.1 "" (GenEnv.mk (.error "OpenAI down") 1 2)
      none (by decide),
    pipeline_failures_return_error_dicts.2.2.2.1 "a sufficiently long dictation"
      (GenEnv.mk (.error "OpenAI down") 1 2) none "OpenAI down" (by decide) rfl,
    pipeline_failures_return_error_dicts.2.2.2.2 "a sufficiently long dictation"
      (GenEnv.mk (.ok (ParseOutcome.parsed (Json.str "oops"), ⟨0, 0, 0⟩)) 1 2) none
      (ParseOutcome.parsed (Json.str "oops")) ⟨0, 0, 0⟩
      "AI response processing failed: AttributeError: no attribute items"
      (by decide) rfl rfl⟩

/-! ## Claim C10 -/

/-- The claim's description of confidence estimation, stated independently:
average the NBest confidences when the detailed-JSON property supplies them
(at least 0.8 high, at least 0.6 medium, else low); when the property is
absent or unparseable, fall back to the length heuristic on the recognised
text, with "low" for empty text. -/
def confidenceClaimSpec (r : SpeechResult) : String :=
  match r.jsonProperty with
  | some (DetailedProp.parsed (some (NBestValue.items cs))) =>
      let avg := (cs.map (fun c => c.getD 0)).sum / (cs.length : Rat)
      if avg ≥ 8/10 then "high" else if avg ≥ 6/10 then "medium" else "low"
  | _ =>
      if r.text = "" then "low"
      else if r.text.length > 100 ∧ (pySplitWhitespace r.text).length > 20 then
        "high"
      else if r.text.length > 50 ∧ (pySplitWhitespace r.text).length > 10 then
        "medium"
      else "low"

/-- The situations the claim describes: the detailed property yields a
non-empty NBest list, or the property is absent, or it is unparseable. -/
def confidenceClaimApplies (r : SpeechResult) : Prop :=
  (∃ cs, r.jsonProperty = some (DetailedProp.parsed (some (NBestValue.items cs)))
      ∧ cs ≠ []) ∨
  r.jsonProperty = none ∨
  r.jsonProperty = some DetailedProp.malformed

/-- C10 (confirmed): on every input the claim describes,
`_calculate_confidence` behaves exactly as the claim says. -/
theorem calc_confidence_matches_claim (r : SpeechResult)
    (h : confidenceClaimApplies r) : calcConfidence r = confidenceClaimSpec r := by
  rcases h with ⟨cs, hp, hne⟩ | hp | hp
  · simp only [calcConfidence, confidenceClaimSpec, hp]
    rw [if_neg (by simpa [List.isEmpty_iff] using hne)]
    simp [List.length_map]
  · simp only [calcConfidence, confidenceClaimSpec, hp, confidenceFallback]
    by_cases ht : r.text = "" <;> simp [ht]
  · simp only [calcConfidence, confidenceClaimSpec, hp, confidenceFallback]
    by_cases ht : r.text = "" <;> simp [ht]

/-- Witness for C10: an NBest average of 0.9 maps to "high", and with the
property absent a short text falls back to "low". -/
theorem calc_confidence_matches_claim_witness :
    (confidenceClaimApplies
        (SpeechResult.mk ResultReason.recognizedSpeech ""
          (some (DetailedProp.parsed (some (NBestValue.items [some (9/10)])))) "r1") ∧
      confidenceClaimApplies
        (SpeechResult.mk ResultReason.recognizedSpeech "hello doctor" none "r2")) ∧
    calcConfidence
        (SpeechResult.mk ResultReason.recognizedSpeech ""
          (some (DetailedProp.parsed (some (NBestValue.items [some (9/10)])))) "r1")
      = confidenceClaimSpec
        (SpeechResult.mk ResultReason.recognizedSpeech ""
          (some (DetailedProp.parsed (some (NBestValue.items [some (9/10)])))) "r1") ∧
    calcConfidence (SpeechResult.mk ResultReason.recognizedSpeech "hello doctor" none "r2")
      = confidenceClaimSpec
        (SpeechResult.mk ResultReason.recognizedSpeech "hello doctor" none "r2") :=
  ⟨⟨Or.inl ⟨[some (9/10)], rfl, by simp⟩, Or.inr (Or.inl rfl)⟩,
    calc_confidence_matches_claim _ (Or.inl ⟨[some (9/10)], rfl, by simp⟩),
    calc_confidence_matches_claim _ (Or.inr (Or.inl rfl))⟩

/-!
# Part D: `src/voice-to-soap/backend/main.py` — `POST /api/v1/voice-to-soap`

Embedding of the `voice_to_soap_complete` endpoint. The endpoint takes
`doctor_email` as a plain multipart form field; the request model
`VoiceToSOAPRequest` (which carries the email-format validator) is defined
but never used by this endpoint, so no request-boundary validation runs on
the email. The Provider ORM model's `@validates('email')` hook fires when a
`Provider` object is constructed: a regex failure raises ValueError, which
only the endpoint's broad `except Exception` catches, producing HTTP 500
after the start audit row was already committed. Database tables are
association-free lists of rows; `db.add`/`db.commit` is an append; rows are
identified here by their natural keys (email, MRN) instead of UUIDs. The
diagnostic response fields taken from the generator's processing metadata
(tokens, cost, timestamps), which no claim concerns, are not modelled.
-/

/-- Python `s.startswith(pre)`. -/
def pyStartsWith (s pre : String) : Bool :=
  pre.toList.isPrefixOf s.toList

/-- Python `str.title()`: uppercase a cased character that follows a
non-cased one, lowercase the other cased characters (ASCII letters here). -/
def pyTitleGo : Bool → List Char → List Char
  | _, [] => []
  | prevCased, c :: rest =>
      if c.isAlpha then
        (if prevCased then c.toLower else c.toUpper) :: pyTitleGo true rest
      else c :: pyTitleGo false rest

def pyTitle (s : String) : String :=
  String.mk (pyTitleGo false s.toList)

/-- Character class `[a-zA-Z0-9._%+-]` (the local part of the pattern). -/
def isLocalChar (c : Char) : Bool :=
  c.isAlpha || c.isDigit || c = '.' || c = '_' || c = '%' || c = '+' || c = '-'

/-- Character class `[a-zA-Z0-9.-]` (the domain part of the pattern). -/
def isDomainChar (c : Char) : Bool :=
  c.isAlpha || c.isDigit || c = '.' || c = '-'

/-- `re.match(r'^[a-zA-Z0-9._%+-]+@[a-zA-Z0-9.-]+\.[a-zA-Z]{2,}$', v)`:
one or more local characters, an '@' (no character class contains '@', so
the local part ends at the first '@'), then a domain matching
`[a-zA-Z0-9.-]+\.[a-zA-Z]{2,}` — equivalently, the part after the last dot
is two or more ASCII letters and the non-empty part before it consists of
domain characters. Python's `$` also matches just before one trailing
newline. -/
def emailRegexOk (s : String) : Bool :=
  let cs0 := s.toList
  let cs := if cs0.getLast? = some '\n' then cs0.dropLast else cs0
  let localPart := cs.takeWhile (fun c => c != '@')
  match cs.drop localPart.length with
  | '@' :: domain =>
      decide (localPart ≠ []) && localPart.all isLocalChar &&
        (let tldRev := domain.reverse.takeWhile (fun c => c != '.')
         if tldRev.length = domain.length then false
         else
           decide (domain.length - tldRev.length - 1 ≠ 0) &&
             (domain.take (domain.length - tldRev.length - 1)).all isDomainChar &&
             decide (tldRev.length ≥ 2) && tldRev.all Char.isAlpha)
  | _ => false

/-- A row of the `providers` table (the columns this endpoint touches). -/
structure ProviderRow where
  email : String
  name : String
  specialty : Option String := none
  is_active : Bool := true
  created_by : Option String := none

/-- Constructing a `Provider` fires the `@validates('email')` hook: the raw
value must match the email regex and is stored lowercased; otherwise
`ValueError("Invalid email format")` is raised. -/
def mkProvider (email name : String) (createdBy : Option String) :
    Except String ProviderRow :=
  if emailRegexOk email then
    .ok { email := email.toLower, name := name, created_by := createdBy }
  else .error "Invalid email format"

/-- The temporary provider name for a first-seen email:
`f"Dr. {doctor_email.split('@')[0].title()}"`. -/
def providerDefaultName (doctorEmail : String) : String :=
  "Dr. " ++ pyTitle (String.mk (doctorEmail.toList.takeWhile (fun c => c != '@')))

/-- A row of the `patients` table (no validator on MRN). -/
structure PatientRow where
  mrn : String
  first_name : String
  last_name : String
  is_active : Bool := true
  created_by : Option String := none

/-- A row of the `audio_files` table. -/
structure AudioRow where
  filename : String
  original_filename : String
  file_size : Nat
  mime_type : String
  provider_email : String
  transcription_status : String
  transcription_confidence : Option String := none
  duration_seconds : Option Rat := none
  error_message : Option String := none
  created_by : Option String := none

/-- A row of the `soap_notes` table (the columns this endpoint fills). -/
structure SoapNoteRow where
  provider_email : String
  patient_mrn : String
  visit_type : String
  transcription : String
  transcription_confidence : String
  subjective_data : Json
  objective_data : Json
  assessment_data : Json
  plan_data : Json
  chief_complaint : Json
  primary_diagnosis : Json
  icd10_codes : Json
  status : String
  created_by : Option String := none

/-- Python `x.get(k, default)`: only dicts have `.get`; a non-dict section
raises AttributeError. -/
def pyDictGet (j : Json) (k : String) (dflt : Json) : Except String Json :=
  match j with
  | Json.obj kvs => .ok ((lookupKey kvs k).getD dflt)
  | _ => .error "AttributeError: no attribute get"

/-- `SOAPNote.create_from_ai_response`: extract the structured sections with
`.get` defaults. The AI-metadata reads are kept for their raising behaviour;
their values (model_used, cost, tokens) are diagnostic and not stored in
this embedding. -/
def createSoapRowFromAi (aiData : Json) (providerEmail patientMrn visitType
    transcription transcriptionConfidence : String) (createdBy : Option String) :
    Except String SoapNoteRow := do
  let subjective ← pyDictGet aiData "subjective" (Json.obj [])
  let objective ← pyDictGet aiData "objective" (Json.obj [])
  let assessment ← pyDictGet aiData "assessment" (Json.obj [])
  let plan ← pyDictGet aiData "plan" (Json.obj [])
  let metadata ← pyDictGet aiData "metadata" (Json.obj [])
  let chiefComplaint ← pyDictGet subjective "chief_complaint" (Json.str "")
  let primaryDiagnosis ← pyDictGet assessment "primary_diagnosis" (Json.str "")
  let icd10 ← pyDictGet assessment "icd10_codes" (Json.arr [])
  let _modelUsed ← pyDictGet metadata "model_used" Json.null
  let _confidence ← pyDictGet metadata "confidence_score" (Json.str "")
  let _procTime ← pyDictGet metadata "processing_time" Json.null
  let _tokens ← pyDictGet metadata "tokens_used" Json.null
  let _cost ← pyDictGet metadata "estimated_cost" (Json.str "")
  .ok { provider_email := providerEmail
        patient_mrn := patientMrn
        visit_type := visitType
        transcription := transcription
        transcription_confidence := transcriptionConfidence
        subjective_data := subjective
        objective_data := objective
        assessment_data := assessment
        plan_data := plan
        chief_complaint := chiefComplaint
        primary_diagnosis := primaryDiagnosis
        icd10_codes := icd10
        status := "draft"
        created_by := createdBy }

/-- The database visible to the endpoint, plus the audit-log table
(action name and success flag, in insertion order). -/
structure VoiceState where
  providers : List ProviderRow
  patients : List PatientRow
  audioFiles : List AudioRow
  soapNotes : List SoapNoteRow
  auditLogs : List (String × Bool)

/-- The request's form fields and upload metadata. -/
structure VoiceRequest where
  contentType : String
  fileSize : Nat
  fileName : String
  doctorEmail : String
  patientMrn : String
  visitType : String
  sessionId : Option String

/-- The non-deterministic inputs of one endpoint call: the caller identity,
the temp file the audio bytes were written to, the Azure recognition
outcome, the OpenAI call outcome, and clock readings. -/
structure VoiceEnv where
  userId : String
  tempFileName : String
  speechOutcome : Except String SpeechResult
  genLLM : Except String (ParseOutcome × LLMUsage)
  tTime : Rat
  gTime : Rat
  now : Rat
  newSessionId : String

/-- The response model `SOAPNoteResponse` (the fields this embedding
tracks). -/
structure VoiceResponse where
  session_id : String
  provider_email : String
  patient_mrn : String
  transcription : String
  transcription_confidence : String
  status : String

/-- The endpoint body from step 2 (patient) to the response, entered only
after the provider step succeeded. Split out of `voice_to_soap_complete`
for readability; the control flow is the source's. -/
def voiceAfterProvider (req : VoiceRequest) (env : VoiceEnv)
    (provider : ProviderRow) (sid : String) (st : VoiceState) :
    Except HTTPError VoiceResponse × VoiceState :=
  -- Step 2: get or create patient
  let (patient, st) :=
    match st.patients.find? (fun p => p.mrn == req.patientMrn) with
    | some p => (p, st)
    | none =>
        let p : PatientRow :=
          { mrn := req.patientMrn, first_name := "Patient",
            last_name := req.patientMrn, created_by := some env.userId }
        (p, { st with patients := st.patients ++ [p] })
  -- Step 3: audio record, committed with status "processing"
  let audio : AudioRow :=
    { filename := sid ++ "_" ++ req.fileName
      original_filename := req.fileName
      file_size := req.fileSize
      mime_type := req.contentType
      provider_email := provider.email
      transcription_status := "processing"
      created_by := some env.userId }
  let st := { st with audioFiles := st.audioFiles ++ [audio] }
  -- Step 4: transcription (transcribe_audio_bytes writes the bytes to a
  -- temp file and calls transcribe_audio_file on it)
  let tr := (transcribe_audio_file
      ⟨true, req.fileSize, env.tempFileName, env.speechOutcome, env.tTime, env.now⟩
      (some sid)).1
  match tr with
  | TranscribeResult.failure terr =>
      let audio2 := { audio with
        transcription_status := "failed"
        error_message := some terr.error_message }
      let st := { st with
        audioFiles := st.audioFiles.dropLast ++ [audio2]
        auditLogs := st.auditLogs ++ [("transcription_failed", false)] }
      (.error ⟨500, "Audio transcription failed: " ++ terr.error_message⟩, st)
  | TranscribeResult.success ts =>
      let audio2 := { audio with
        transcription_status := "completed"
        transcription_confidence := some ts.confidence_score
        duration_seconds := some ts.processing_time_seconds }
      let st := { st with
        audioFiles := st.audioFiles.dropLast ++ [audio2] }
      -- Step 5: generate the SOAP note
      let gen := (generate_soap_note ts.transcription
          ⟨env.genLLM, env.gTime, env.now⟩ (some sid)).1
      match gen with
      | SoapGenResult.failure gerr =>
          let st := { st with
            auditLogs := st.auditLogs ++ [("soap_generation_failed", false)] }
          (.error ⟨500, "SOAP generation failed: " ++ gerr.error_message⟩, st)
      | SoapGenResult.success soapJson =>
          -- Step 6: store the note
          match createSoapRowFromAi soapJson provider.email patient.mrn
              req.visitType ts.transcription ts.confidence_score
              (some env.userId) with
          | .error e =>
              -- AttributeError escapes to the broad except: audit + HTTP 500
              let st := { st with
                auditLogs := st.auditLogs ++ [("voice_to_soap_failed", false)] }
              (.error ⟨500, "Voice-to-SOAP processing failed: " ++ e⟩, st)
          | .ok row =>
              let st := { st with
                soapNotes := st.soapNotes ++ [row]
                auditLogs := st.auditLogs ++ [("voice_to_soap_completed", true)] }
              (.ok { session_id := sid
                     provider_email := provider.email
                     patient_mrn := patient.mrn
                     transcription := ts.transcription
                     transcription_confidence := ts.confidence_score
                     status := row.status }, st)

/-- `voice_to_soap_complete`: input checks, start audit, then step 1 —
get or create the provider. A ValueError raised by the Provider email
validator reaches the broad `except Exception`, which logs a
`voice_to_soap_failed` audit row and raises HTTP 500 with the
`Voice-to-SOAP processing failed:` prefix. -/
def voice_to_soap_complete (req : VoiceRequest) (env : VoiceEnv)
    (st : VoiceState) : Except HTTPError VoiceResponse × VoiceState :=
  let sid := req.sessionId.getD env.newSessionId
  if pyStartsWith req.contentType "audio/" = false then
    (.error ⟨400, "Invalid audio file type"⟩, st)
  else if req.fileSize > 100 * 1024 * 1024 then
    (.error ⟨400, "Audio file too large (max 100MB)"⟩, st)
  else
    -- audit: processing started (committed before the provider step)
    let st := { st with auditLogs := st.auditLogs ++ [("voice_to_soap_start", true)] }
    match st.providers.find? (fun p => p.email == req.doctorEmail) with
    | some provider => voiceAfterProvider req env provider sid st
    | none =>
        match mkProvider req.doctorEmail (providerDefaultName req.doctorEmail)
            (some env.userId) with
        | .error e =>
            (.error ⟨500, "Voice-to-SOAP processing failed: " ++ e⟩,
             { st with auditLogs := st.auditLogs ++ [("voice_to_soap_failed", false)] })
        | .ok provider =>
            voiceAfterProvider req env provider sid
              { st with providers := st.providers ++ [provider] }

/-! ## Claim C8 -/

/-- C8 (amended): a malformed provider email is not rejected at the request
boundary — the endpoint reads it from a plain form field, and the
`VoiceToSOAPRequest` validator never runs for it. Instead, after the start
audit row has already been committed, the Provider model's email validator
raises ValueError when the first-seen email fails the regex; the endpoint's
broad exception handler surfaces it as HTTP 500 ("Voice-to-SOAP processing
failed: Invalid email format") together with a failure audit row, and no
Provider row with that email is created — the providers table is unchanged
(every stored provider email matches the regex, as the validator guarantees
on insert). -/
theorem malformed_email_500_no_provider_row
    (req : VoiceRequest) (env : VoiceEnv) (st : VoiceState)
    (hct : pyStartsWith req.contentType "audio/" = true)
    (hsz : ¬ req.fileSize > 100 * 1024 * 1024)
    (hbad : emailRegexOk req.doctorEmail = false)
    (hdb : ∀ p ∈ st.providers, emailRegexOk p.email = true) :
    voice_to_soap_complete req env st =
      (.error ⟨500, "Voice-to-SOAP processing failed: Invalid email format"⟩,
        { st with auditLogs := st.auditLogs ++
            [("voice_to_soap_start", true), ("voice_to_soap_failed", false)] }) ∧
    (voice_to_soap_complete req env st).2.providers = st.providers := by
  have hfind : st.providers.find? (fun p => p.email == req.doctorEmail) = none := by
    rw [List.find?_eq_none]
    intro p hp hpe
    have h2 := hdb p hp
    rw [beq_iff_eq] at hpe
    rw [hpe] at h2
    rw [h2] at hbad
    cases hbad
  have hmain : voice_to_soap_complete req env st =
      (.error ⟨500, "Voice-to-SOAP processing failed: Invalid email format"⟩,
        { st with auditLogs := st.auditLogs ++
            [("voice_to_soap_start", true), ("voice_to_soap_failed", false)] }) := by
    simp only [voice_to_soap_complete, hct, hsz, Bool.true_eq_false, if_false,
      if_neg hsz, hfind, mkProvider, hbad, Bool.false_eq_true, List.append_assoc,
      List.singleton_append]
    rfl
  exact ⟨hmain, by rw [hmain]⟩

/-- The request, caller and store of the concrete malformed-email run. -/
def exVoiceReq : VoiceRequest :=
  { contentType := "audio/wav", fileSize := 1000, fileName := "visit.wav",
    doctorEmail := "not-an-email", patientMrn := "MRN-1",
    visitType := "routine", sessionId := some "sess-1" }

def exVoiceEnv : VoiceEnv :=
  { userId := "user-123", tempFileName := "tmp.wav",
    speechOutcome := .error "unused", genLLM := .error "unused",
    tTime := 1, gTime := 1, now := 2, newSessionId := "gen-sess" }

def exVoiceState : VoiceState :=
  { providers := [], patients := [], audioFiles := [], soapNotes := [],
    auditLogs := [] }

/-- C8 counterexample: the claim says a malformed email is rejected at the
boundary with a validation error, but the request fails with HTTP 500 (an
internal processing error, not a request-validation response such as 422),
and only after the start audit row was committed — a side effect a boundary
rejection would not produce. (No Provider row is created, as the claim
says.) -/
theorem malformed_email_not_boundary_validation :
    emailRegexOk "not-an-email" = false ∧
    voice_to_soap_complete exVoiceReq exVoiceEnv exVoiceState =
      (.error ⟨500, "Voice-to-SOAP processing failed: Invalid email format"⟩,
        { providers := [], patients := [], audioFiles := [], soapNotes := [],
          auditLogs := [("voice_to_soap_start", true),
                        ("voice_to_soap_failed", false)] }) ∧
    (500 : Nat) ≠ 422 ∧
    (voice_to_soap_complete exVoiceReq exVoiceEnv exVoiceState).2.auditLogs ≠ [] := by
  refine ⟨rfl, rfl, by decide, by decide⟩

/-- Witness for C8 (amended) on the concrete malformed-email run. -/
theorem malformed_email_500_no_provider_row_witness :
    (pyStartsWith exVoiceReq.contentType "audio/" = true ∧
      ¬ exVoiceReq.fileSize > 100 * 1024 * 1024 ∧
      emailRegexOk exVoiceReq.doctorEmail = false ∧
      (∀ p ∈ exVoiceState.providers, emailRegexOk p.email = true)) ∧
    (voice_to_soap_complete exVoiceReq exVoiceEnv exVoiceState =
      (.error ⟨500, "Voice-to-SOAP processing failed: Invalid email format"⟩,
        { exVoiceState with auditLogs := exVoiceState.auditLogs ++
            [("voice_to_soap_start", true), ("voice_to_soap_failed", false)] }) ∧
    (voice_to_soap_complete exVoiceReq exVoiceEnv exVoiceState).2.providers
      = exVoiceState.providers) :=
  ⟨⟨rfl, by decide, rfl, fun p hp => absurd hp (List.not_mem_nil p)⟩,
    malformed_email_500_no_provider_row exVoiceReq exVoiceEnv exVoiceState
      rfl (by decide) rfl (fun p hp => absurd hp (List.not_mem_nil p))⟩

end Audicia
